import Mathlib

/-!
# Book Finder: the Open Library client and the search session

A shallow embedding of `src/services/openLibraryAPI.js` and of the state
handlers of `src/App.jsx`.

* JavaScript values are the JSON values plus `undefined` (`JsVal`).  Numbers
  are the integers: every number the modelled code computes with is a count,
  a page number or an offset.
* The handlers of `App` are modelled on query texts that are well-formed
  Unicode (`String`) and on integers that double arithmetic keeps exact.
  `openLibraryAPI.searchBooks` is modelled a second time in general: on every
  JavaScript string, a list of UTF-16 code units in which a surrogate may
  stand alone and make `encodeURIComponent` throw, and on integers read as
  doubles, rounded and printed as JavaScript does.  The two agree where the
  first applies (`searchBooks_agrees`).
* An `async` function is split at its `await`: the synchronous prefix is one
  function, the continuation that runs when the promise settles another.
  `fetch` is a function from the requested URL to the way the request
  settles, and every call records the URL it requested.
-/

namespace BookFinder

/-! ## JavaScript values -/

/-- A JavaScript value: a parsed JSON value, or `undefined`. -/
inductive JsVal where
  | undefined
  | null
  | bool (b : Bool)
  | num (n : Int)
  | str (s : String)
  | arr (items : List JsVal)
  | obj (fields : List (String × JsVal))

namespace JsVal

/-- ToBoolean: `undefined`, `null`, `false`, `0` and `""` are falsy. -/
def truthy : JsVal → Bool
  | undefined => false
  | null => false
  | bool b => b
  | num n => decide (n ≠ 0)
  | str s => decide (s ≠ "")
  | arr _ => true
  | obj _ => true

/-- The operator `a || b`. -/
def or (a b : JsVal) : JsVal := if a.truthy then a else b

/-- The comparison `v === n` against a number `n`. -/
def strictEqNum (v : JsVal) (n : Int) : Bool :=
  match v with
  | num m => decide (m = n)
  | _ => false

/-- The comparison `v === s` against a string `s`. -/
def strictEqStr (v : JsVal) (s : String) : Bool :=
  match v with
  | str t => decide (t = s)
  | _ => false

/-- Number of UTF-16 code units of a string, its JavaScript `length`. -/
def utf16Length (s : String) : Nat :=
  (s.toList.map fun c => if c.toNat < 65536 then 1 else 2).sum

mutual
/-- ToString, as applied by a template literal. -/
def toStr : JsVal → String
  | undefined => "undefined"
  | null => "null"
  | bool b => if b then "true" else "false"
  | num n => toString n
  | str s => s
  | arr items => joinStr items
  | obj _ => "[object Object]"
termination_by structural v => v
/-- The method `Array.prototype.join` with the separator `,`. -/
def joinStr : List JsVal → String
  | [] => ""
  | x :: rest =>
    (match x with
      | undefined => ""
      | null => ""
      | v => toStr v) ++
    (match rest with
      | [] => ""
      | _ :: _ => "," ++ joinStr rest)
termination_by structural l => l
end

end JsVal

/-- A thrown `Error` object: its `name` and its `message`. -/
structure JsError where
  name : String
  message : String
deriving DecidableEq, Repr

/-- The property read `v.name`.  Reading a property of `undefined` or `null`
throws a `TypeError`; an object yields its own field or `undefined`; an array
and a string have a `length`. -/
def JsVal.getProp (v : JsVal) (name : String) : Except JsError JsVal :=
  match v with
  | .undefined => .error ⟨"TypeError", "Cannot read properties of undefined"⟩
  | .null => .error ⟨"TypeError", "Cannot read properties of null"⟩
  | .obj fields =>
    match fields.lookup name with
    | some x => .ok x
    | none => .ok .undefined
  | .arr items => if name = "length" then .ok (.num items.length) else .ok .undefined
  | .str s => if name = "length" then .ok (.num (JsVal.utf16Length s)) else .ok .undefined
  | .bool _ => .ok .undefined
  | .num _ => .ok .undefined

/-! ## encodeURIComponent -/

/-- The characters `encodeURIComponent` leaves as they are:
ASCII letters, digits and the marks - _ . ! ~ * ' ( ). -/
def isUriUnreserved (c : Char) : Bool :=
  c.isAlphanum || [45, 95, 46, 33, 126, 42, 39, 40, 41].contains c.toNat

/-- UTF-8 encoding of one character. -/
def utf8Bytes (c : Char) : List Nat :=
  let v := c.toNat
  if v < 128 then [v]
  else if v < 2048 then [192 + v / 64, 128 + v % 64]
  else if v < 65536 then [224 + v / 4096, 128 + (v / 64) % 64, 128 + v % 64]
  else [240 + v / 262144, 128 + (v / 4096) % 64, 128 + (v / 64) % 64, 128 + v % 64]

/-- One upper-case hexadecimal digit. -/
def hexDigit (n : Nat) : Char :=
  if n < 10 then Char.ofNat (48 + n) else Char.ofNat (55 + n)

/-- The escape `%XX` of one byte. -/
def percentByte (b : Nat) : String :=
  String.mk ['%', hexDigit (b / 16), hexDigit (b % 16)]

/-- The builtin `encodeURIComponent` on a well-formed string, where it does
not throw; `encodeURIComponentUnits` is the builtin on every string. -/
def encodeURIComponent (s : String) : String :=
  String.join (s.toList.map fun c =>
    if isUriUnreserved c then String.singleton c
    else String.join ((utf8Bytes c).map percentByte))

/-! ## The network -/

/-- A response received by `fetch`: the HTTP status, and what
`response.json()` resolves to (`none` when the body is not JSON and the
promise rejects). -/
structure Response where
  status : Nat
  body : Option JsVal

/-- The getter `response.ok`: the status is in the range 200-299. -/
def Response.ok (r : Response) : Bool :=
  decide (200 ≤ r.status) && decide (r.status ≤ 299)

/-- How a `fetch` promise settles. -/
inductive FetchOutcome where
  | rejected (reason : JsError)
  | resolved (response : Response)

/-- One run of an `async` service function: the URLs passed to `fetch`, in
order, the errors written with `console.error`, and how the returned promise
settles. -/
structure Run (α : Type) where
  requests : List String
  logged : List JsError
  outcome : Except JsError α

/-! ## services/openLibraryAPI.js -/

def BASE_URL : String := "https://openlibrary.org"

/-- The object returned by `searchBooks`. -/
structure SearchResult where
  books : JsVal
  totalResults : JsVal
  hasMore : JsVal

/-- The local `offset` of `searchBooks` where the subtraction and the product
are exact in doubles; `openLibraryAPI.searchOffset` is the offset in
general. -/
def searchOffset (page limit : Int) : Int := (page - 1) * limit

/-- The local `searchParam` of `searchBooks`, chosen by the `switch`; the
parameter default `type = 'q'` replaces `undefined` only and ends in the
`default` branch like every other unlisted value. -/
def searchParam (query : String) (type : JsVal) : String :=
  if type.strictEqStr "title" then "title=" ++ encodeURIComponent query
  else if type.strictEqStr "author" then "author=" ++ encodeURIComponent query
  else "q=" ++ encodeURIComponent query

/-- The projection requested with every search. -/
def searchFields : String :=
  "key,title,author_name,first_publish_year,cover_i,isbn,publisher,number_of_pages_median"

/-- The local `url` of `searchBooks` for a well-formed query text and numbers
below `2 ^ 53`, which are written in decimal; `openLibraryAPI.searchUrl` is
the URL in general. -/
def searchUrl (query : String) (type : JsVal) (page limit : Int) : String :=
  BASE_URL ++ "/search.json?" ++ searchParam query type ++ "&limit=" ++ toString limit ++
    "&offset=" ++ toString (searchOffset page limit) ++ "&fields=" ++ searchFields

/-- The error thrown on a response that is not `ok`. -/
def httpError (status : Nat) : JsError :=
  ⟨"Error", "HTTP error! status: " ++ toString status⟩

/-- The rejection of `response.json()` on a body that is not JSON. -/
def jsonSyntaxError : JsError := ⟨"SyntaxError", "Unexpected token in JSON"⟩

/-- The error `searchBooks` throws from its `catch` block. -/
def searchFailure : JsError := ⟨"Error", "Failed to fetch books. Please try again."⟩

/-- The object literal returned by `searchBooks`, built from the parsed body
`data`:  `books: data.docs || []`, `totalResults: data.numFound || 0`,
`hasMore: data.docs && data.docs.length === limit`. -/
def searchResultOf (data : JsVal) (limit : Int) : Except JsError SearchResult := do
  let docs ← data.getProp "docs"
  let numFound ← data.getProp "numFound"
  let hasMore ←
    if docs.truthy then do
      let len ← docs.getProp "length"
      pure (JsVal.bool (len.strictEqNum limit))
    else pure docs
  pure { books := docs.or (.arr []), totalResults := numFound.or (.num 0), hasMore := hasMore }

/-- The `try` block of `searchBooks` after `fetch` has settled. -/
def searchBooksTry (settled : FetchOutcome) (limit : Int) : Except JsError SearchResult :=
  match settled with
  | .rejected reason => .error reason
  | .resolved response =>
    if !response.ok then .error (httpError response.status)
    else
      match response.body with
      | none => .error jsonSyntaxError
      | some data => searchResultOf data limit

/-- The service function `openLibraryAPI.searchBooks(query, type, page, limit)`
on a well-formed query text and numbers below `2 ^ 53`, where building the
URL cannot throw: one `fetch`, and a `catch` that logs the cause and throws
`searchFailure`.  `openLibraryAPI.searchBooks` below is the function on every
string and every integer, and `searchBooks_agrees` relates the two. -/
def searchBooks (net : String → FetchOutcome) (query : String) (type : JsVal)
    (page limit : Int) : Run SearchResult :=
  let url := searchUrl query type page limit
  match searchBooksTry (net url) limit with
  | .ok result => { requests := [url], logged := [], outcome := .ok result }
  | .error cause => { requests := [url], logged := [cause], outcome := .error searchFailure }

/-- The function `openLibraryAPI.getCoverUrl(coverId, size)`; the parameter
default `size = 'M'` replaces `undefined`. -/
def getCoverUrl (coverId size : JsVal) : JsVal :=
  let size := match size with
    | .undefined => JsVal.str "M"
    | s => s
  if !coverId.truthy then .null
  else .str ("https://covers.openlibrary.org/b/id/" ++ coverId.toStr ++ "-" ++ size.toStr ++ ".jpg")

/-! ## App.jsx: the search session -/

/-- The `useState` cells of `App` that the search session uses. -/
structure AppState where
  books : JsVal
  selectedBook : JsVal
  isModalOpen : Bool
  isLoading : Bool
  isLoadingMore : Bool
  error : JsVal
  hasMore : JsVal
  totalResults : JsVal
  currentPage : Int
  currentQuery : String
  currentSearchType : JsVal
  shouldAutoScroll : Bool

/-- The initial values passed to `useState`. -/
def AppState.initial : AppState where
  books := .arr []
  selectedBook := .null
  isModalOpen := false
  isLoading := false
  isLoadingMore := false
  error := .null
  hasMore := .bool false
  totalResults := .num 0
  currentPage := 1
  currentQuery := ""
  currentSearchType := .str "q"
  shouldAutoScroll := false

/-- The page size of every search issued by `App`: both handlers call
`searchBooks` with three arguments, so `limit` takes its default. -/
def defaultLimit : Int := 20

/-- The part of `handleSearch(query, searchType)` before its `await`. -/
def handleSearchStart (s : AppState) (query : String) (searchType : JsVal) : AppState :=
  { s with
    isLoading := true
    error := .null
    books := .arr []
    currentPage := 1
    currentQuery := query
    currentSearchType := searchType
    shouldAutoScroll := true }

/-- The part of `handleSearch` after its `await`: the `try` continuation on
a result, the `catch` block on an error, and `finally` in both cases. -/
def handleSearchSettled (s : AppState) (settled : Except JsError SearchResult) : AppState :=
  match settled with
  | .ok result =>
    { s with
      books := result.books
      totalResults := result.totalResults
      hasMore := result.hasMore
      isLoading := false }
  | .error err =>
    { s with
      error := .str err.message
      books := .arr []
      totalResults := .num 0
      hasMore := .bool false
      isLoading := false }

/-- A whole `handleSearch(query, searchType)` with nothing interleaved: the
state it leaves and the URLs it requested. -/
def handleSearch (net : String → FetchOutcome) (s : AppState) (query : String)
    (searchType : JsVal) : AppState × List String :=
  let run := searchBooks net query searchType 1 defaultLimit
  (handleSearchSettled (handleSearchStart s query searchType) run.outcome, run.requests)

/-- What a pending `handleLoadMore` has captured: the local `nextPage` and
the query and search type of the render it was created in. -/
structure LoadMoreCall where
  nextPage : Int
  query : String
  searchType : JsVal

/-- The part of `handleLoadMore()` before its `await`: the guard, then
`setIsLoadingMore(true)`; `none` when the guard returned. -/
def handleLoadMoreStart (s : AppState) : AppState × Option LoadMoreCall :=
  if s.isLoadingMore || !s.hasMore.truthy then (s, none)
  else
    ({ s with isLoadingMore := true },
      some { nextPage := s.currentPage + 1, query := s.currentQuery,
             searchType := s.currentSearchType })

/-- The elements produced by spreading a value in an array literal: an array
yields its items, a string its characters, anything else is not iterable. -/
def JsVal.spread : JsVal → Option (List JsVal)
  | .arr items => some items
  | .str s => some (s.toList.map fun c => JsVal.str (String.singleton c))
  | _ => none

/-- The updater `prevBooks => [...prevBooks, ...result.books]`; `none` when a
spread throws. -/
def appendBooks (prevBooks more : JsVal) : Option JsVal := do
  let a ← prevBooks.spread
  let b ← more.spread
  pure (.arr (a ++ b))

/-- The part of `handleLoadMore` after its `await`.  The updater passed to
`setBooks` runs on the books held when the promise settles; a throwing
updater fails the render, which is `none`. -/
def handleLoadMoreSettled (s : AppState) (nextPage : Int)
    (settled : Except JsError SearchResult) : Option AppState :=
  match settled with
  | .ok result =>
    match appendBooks s.books result.books with
    | some books =>
      some { s with
        books := books
        hasMore := result.hasMore
        currentPage := nextPage
        isLoadingMore := false }
    | none => none
  | .error err => some { s with error := .str err.message, isLoadingMore := false }

/-- A whole `handleLoadMore()` with nothing interleaved: the state it leaves
and the URLs it requested. -/
def handleLoadMore (net : String → FetchOutcome) (s : AppState) :
    Option AppState × List String :=
  match handleLoadMoreStart s with
  | (s1, none) => (some s1, [])
  | (s1, some call) =>
    let run := searchBooks net call.query call.searchType call.nextPage defaultLimit
    (handleLoadMoreSettled s1 call.nextPage run.outcome, run.requests)

/-! ## services/openLibraryAPI.js: book details -/

/-- The URL requested by `getBookDetails`: the key follows the base
directly. -/
def detailsUrl (key : JsVal) : String := BASE_URL ++ key.toStr ++ ".json"

/-- The error `getBookDetails` throws from its `catch` block. -/
def detailsFailure : JsError :=
  ⟨"Error", "Failed to fetch book details. Please try again."⟩

/-- The `try` block of `getBookDetails` after `fetch` has settled: the parsed
body is returned as it is. -/
def getBookDetailsTry (settled : FetchOutcome) : Except JsError JsVal :=
  match settled with
  | .rejected reason => .error reason
  | .resolved response =>
    if !response.ok then .error (httpError response.status)
    else
      match response.body with
      | none => .error jsonSyntaxError
      | some data => .ok data

/-- The service function `openLibraryAPI.getBookDetails(key)`. -/
def getBookDetails (net : String → FetchOutcome) (key : JsVal) : Run JsVal :=
  let url := detailsUrl key
  match getBookDetailsTry (net url) with
  | .ok details => { requests := [url], logged := [], outcome := .ok details }
  | .error cause => { requests := [url], logged := [cause], outcome := .error detailsFailure }

/-! ## components/SearchBar.jsx -/

/-- The characters removed by `String.prototype.trim`: the white space and
line terminator code points of ECMAScript. -/
def isJsWhiteSpace (c : Char) : Bool :=
  [9, 10, 11, 12, 13, 32, 160, 5760, 8232, 8233, 8239, 8287, 12288, 65279].contains c.toNat ||
    (decide (8192 ≤ c.toNat) && decide (c.toNat ≤ 8202))

/-- The method `String.prototype.trim`. -/
def jsTrim (s : String) : String :=
  String.mk ((s.toList.dropWhile isJsWhiteSpace).reverse.dropWhile isJsWhiteSpace).reverse

/-- The handler `handleSubmit` of `SearchBar` on the typed text `query`: the
argument list of its call of `onSearch`, or `none` when `query.trim()` is
falsy and nothing is called. -/
def handleSubmit (query : String) : Option String :=
  if (JsVal.str (jsTrim query)).truthy then some query else none

/-- Submitting the search form of the page: `onSearch` is `handleSearch`, and
`handleSubmit` passes it one argument, so `searchType` is `undefined`. -/
def submitForm (net : String → FetchOutcome) (s : AppState) (query : String) :
    AppState × List String :=
  match handleSubmit query with
  | some q => handleSearch net s q .undefined
  | none => (s, [])

/-! ## App.jsx and components/BookDetailModal.jsx: the detail view -/

/-- The `useState` cells of `BookDetailModal`.  `App` renders the component
unconditionally, so the cells live as long as the page. -/
structure ModalState where
  bookDetails : JsVal
  isLoading : Bool
  error : JsVal

/-- The initial values passed to `useState` in `BookDetailModal`. -/
def ModalState.initial : ModalState where
  bookDetails := .null
  isLoading := false
  error := .null

/-- The handler `handleBookClick(book)` of `App`. -/
def handleBookClick (s : AppState) (book : JsVal) : AppState :=
  { s with selectedBook := book, isModalOpen := true }

/-- The handler `handleModalClose()` of `App`. -/
def handleModalClose (s : AppState) : AppState :=
  { s with isModalOpen := false, selectedBook := .null }

/-- The part of `fetchBookDetails` before its `await` that sets the state. -/
def fetchBookDetailsStart (m : ModalState) : ModalState :=
  { m with isLoading := true, error := .null }

/-- The part of `fetchBookDetails` after its `await`, and its `catch` and
`finally` blocks when the `try` block throws before it. -/
def fetchBookDetailsSettled (m : ModalState) (settled : Except JsError JsVal) : ModalState :=
  match settled with
  | .ok details => { m with bookDetails := details, isLoading := false }
  | .error err => { m with error := .str err.message, isLoading := false }

/-- The read `v?.name`, and the read `v.name` of a value known not to be
`undefined` or `null`. -/
def JsVal.optProp (v : JsVal) (name : String) : JsVal :=
  match v.getProp name with
  | .ok x => x
  | .error _ => .undefined

/-- The child of the description paragraph of `BookDetailModal`:
`bookDetails?.description && (typeof d === 'string' ? d : d.value || d)`;
`none` when the guard is falsy and the card is not rendered. -/
def descriptionText (bookDetails : JsVal) : Option JsVal :=
  let d := bookDetails.optProp "description"
  if d.truthy then
    match d with
    | .str _ => some d
    | _ => some ((d.optProp "value").or d)
  else none

/-! ## App.jsx: the auto-scroll effect -/

/-- The comparison `Object.is` of two primitive values, by which React
compares the dependencies of an effect; the dependencies compared here are
never objects. -/
def JsVal.sameValue : JsVal → JsVal → Bool
  | .undefined, .undefined => true
  | .null, .null => true
  | .bool a, .bool b => a == b
  | .num a, .num b => decide (a = b)
  | .str a, .str b => decide (a = b)
  | _, _ => false

/-- The comparison `v > 0` on a number, which is what the `length` of an
array or of a string is; on `undefined` it is false. -/
def JsVal.gtZero : JsVal → Bool
  | .num n => decide (0 < n)
  | _ => false

/-- The dependency `books.length` of the auto-scroll effect. -/
def booksLength (s : AppState) : JsVal := s.books.optProp "length"

/-- The condition of the auto-scroll effect,
`!isLoading && shouldAutoScroll && (books.length > 0 || error) && resultsRef.current`;
the ref is attached to a `div` that every render contains. -/
def autoScrollCondition (s : AppState) : Bool :=
  !s.isLoading && s.shouldAutoScroll && ((booksLength s).gtZero || s.error.truthy)

/-- The dependencies `[isLoading, books.length, error, shouldAutoScroll]` of
the auto-scroll effect are the same in two renders. -/
def sameScrollDeps (a b : AppState) : Bool :=
  (a.isLoading == b.isLoading) && (booksLength a).sameValue (booksLength b) &&
    a.error.sameValue b.error && (a.shouldAutoScroll == b.shouldAutoScroll)

/-- The page as the auto-scroll effect sees it: the state of `App`, the
number of pending timeouts set by the effect, and the number of calls of
`scrollIntoView` made so far. -/
structure Session where
  app : AppState
  timers : Nat
  scrolls : Nat

/-- The page after mounting: the effect ran once on the initial state, where
its condition is false. -/
def Session.initial : Session := { app := AppState.initial, timers := 0, scrolls := 0 }

/-- One render with the state `next`, the updates of one handler run being
batched: the effect runs when a dependency changed, and sets a timeout when
its condition holds. -/
def commit (s : Session) (next : AppState) : Session :=
  { s with
    app := next
    timers := if !sameScrollDeps s.app next && autoScrollCondition next
      then s.timers + 1 else s.timers }

/-- What happens to the page: a call of `handleSearch` or `handleLoadMore`
up to its `await`, the settling of such a call, or the firing of a timeout
set by the auto-scroll effect. -/
inductive Event where
  | search (query : String) (searchType : JsVal)
  | searchSettled (settled : Except JsError SearchResult)
  | loadMore
  | loadMoreSettled (nextPage : Int) (settled : Except JsError SearchResult)
  | timer

/-- One event on the page; `none` when a state updater threw.  The callback
of the timeout calls `scrollIntoView` and `setShouldAutoScroll(false)`. -/
def step (s : Session) : Event → Option Session
  | .search query searchType => some (commit s (handleSearchStart s.app query searchType))
  | .searchSettled settled => some (commit s (handleSearchSettled s.app settled))
  | .loadMore => some (commit s (handleLoadMoreStart s.app).1)
  | .loadMoreSettled nextPage settled =>
    match handleLoadMoreSettled s.app nextPage settled with
    | some next => some (commit s next)
    | none => none
  | .timer =>
    if s.timers = 0 then some s
    else
      some (commit { s with timers := s.timers - 1, scrolls := s.scrolls + 1 }
        { s.app with shouldAutoScroll := false })

/-- A sequence of events, in order. -/
def runEvents (s : Session) : List Event → Option Session
  | [] => some s
  | e :: rest =>
    match step s e with
    | some next => runEvents next rest
    | none => none

/-! ## components/BookDetailModal.jsx: the memoized fetch and the effect -/

/-- The component `BookDetailModal` between two renders: its `useState` cells
and what `useCallback(..., [book?.key])` holds, the dependency it recorded
and the `book` that the memoized `fetchBookDetails` closed over. -/
structure Modal where
  cells : ModalState
  memoKey : JsVal
  memoBook : JsVal

/-- The component after mounting: the first render has `book = null`, so the
recorded dependency is `undefined` and the closure holds `null`. -/
def Modal.initial : Modal :=
  { cells := ModalState.initial, memoKey := .undefined, memoBook := .null }

/-- The hook `useCallback` in a render with the prop `book`: the closure is
replaced only when `book?.key` is not the recorded dependency (`Object.is`;
the keys of two book objects that are objects themselves are never the
same). -/
def renderModal (m : Modal) (book : JsVal) : Modal :=
  if m.memoKey.sameValue (book.optProp "key") then m
  else { m with memoKey := book.optProp "key", memoBook := book }

/-- A call of the memoized `fetchBookDetails` up to its `await`: the state it
leaves and the key passed to `getBookDetails`.  When reading `book.key` of
the closed-over book throws, the `catch` and `finally` blocks run at once and
nothing is requested. -/
def fetchBookDetailsCall (m : Modal) : Modal × Option JsVal :=
  match m.memoBook.getProp "key" with
  | .ok key => ({ m with cells := fetchBookDetailsStart m.cells }, some key)
  | .error cause =>
    ({ m with cells := fetchBookDetailsSettled (fetchBookDetailsStart m.cells) (.error cause) },
      none)

/-- The effect of `BookDetailModal` on `[isOpen, book, fetchBookDetails]`,
run after a render in which one of them changed: `fetchBookDetails()` is
called when the modal is open and a book is selected. -/
def modalEffect (s : AppState) (m : Modal) : Modal × Option JsVal :=
  if s.isModalOpen && s.selectedBook.truthy then fetchBookDetailsCall m else (m, none)

/-- Selecting a book: `handleBookClick`, the render it causes, then the
effect.  The book is another object than the one selected, or the modal was
closed, so that a dependency of the effect has changed and the effect runs.
The second component is the detail view while the fetch is pending. -/
def selectItem (ui : AppState × Modal) (book : JsVal) : AppState × Modal :=
  (handleBookClick ui.1 book,
    (modalEffect (handleBookClick ui.1 book) (renderModal ui.2 book)).1)

/-- The key passed to `getBookDetails` when a book is selected; `none` when
no request is made. -/
def selectRequest (ui : AppState × Modal) (book : JsVal) : Option JsVal :=
  (modalEffect (handleBookClick ui.1 book) (renderModal ui.2 book)).2

/-- Closing the modal: `handleModalClose`, the render it causes with
`book = null`, then the effect. -/
def clearSelection (ui : AppState × Modal) : AppState × Modal :=
  (handleModalClose ui.1,
    (modalEffect (handleModalClose ui.1) (renderModal ui.2 .null)).1)

/-- The completion of a detail fetch, whichever selection started it. -/
def detailSettled (ui : AppState × Modal) (settled : Except JsError JsVal) :
    AppState × Modal :=
  (ui.1, { ui.2 with cells := fetchBookDetailsSettled ui.2.cells settled })

/-- What the body of the modal shows:
`isLoading ? spinner : error ? error pane : details`. -/
inductive DetailPane where
  | spinner
  | errorPane (message : JsVal)
  | details (bookDetails : JsVal)

/-- The body of the modal for the given cells. -/
def detailPane (m : ModalState) : DetailPane :=
  if m.isLoading then .spinner
  else if m.error.truthy then .errorPane m.error
  else .details m.bookDetails

/-! ## Searches and load-mores without overlap -/

/-- The suggestion buttons of `SearchBar`. -/
def suggestions : List String :=
  ["Classic Literature", "Contemporary Fiction", "Mystery & Thriller", "Science Fiction",
   "Jane Austen", "Agatha Christie", "Philosophy", "Poetry"]

/-- The `onClick` of a suggestion button of `SearchBar`:
`setQuery(suggestion); onSearch(suggestion)`, with `onSearch` being
`handleSearch`. -/
def clickSuggestion (net : String → FetchOutcome) (s : AppState) (suggestion : String) :
    AppState × List String :=
  handleSearch net s suggestion .undefined

/-- A call of `handleSearch` or of `handleLoadMore` whose fetch settles before
the next call is made. -/
inductive Op where
  | search (query : String) (searchType : JsVal)
  | loadMore

/-- One call run to its completion: the state it leaves (`none` when a state
updater threw) and the URLs it requested. -/
def applyOp (net : String → FetchOutcome) (s : AppState) : Op → Option AppState × List String
  | .search query searchType =>
    ((some (handleSearch net s query searchType).1), (handleSearch net s query searchType).2)
  | .loadMore => handleLoadMore net s

/-- A sequence of calls, each run to its completion before the next: the
final state and all the URLs requested, in order. -/
def runOps (net : String → FetchOutcome) (s : AppState) : List Op → Option AppState × List String
  | [] => (some s, [])
  | op :: rest =>
    match applyOp net s op with
    | (some next, urls) => ((runOps net next rest).1, urls ++ (runOps net next rest).2)
    | (none, urls) => (none, urls)

/-- Follows the words of the claim on successive pages: the concatenation, in
the order of the requests, of the items of the pages 1 to `n`. -/
def pagesUpTo (pages : Nat → List JsVal) : Nat → List JsVal
  | 0 => []
  | n + 1 => pagesUpTo pages n ++ pages (n + 1)

/-- Follows the words of the claim on the accumulated items: every item of
`books` was returned by the response to a request made for the current query
and search type. -/
def booksFromCurrentQuery (net : String → FetchOutcome) (s : AppState) : Prop :=
  ∀ items, s.books.spread = some items → ∀ b ∈ items,
    ∃ (page : Int) (r : SearchResult) (returned : List JsVal),
      (searchBooks net s.currentQuery s.currentSearchType page defaultLimit).outcome = .ok r ∧
      r.books.spread = some returned ∧ b ∈ returned

/-! ## JavaScript numbers and strings as `searchBooks` receives them

The service function above takes a query text that is well-formed Unicode and
computes with exact integers.  Below is the same function on every JavaScript
string, a sequence of UTF-16 code units in which a surrogate may stand alone,
and on numbers as doubles: `page` and `limit` are integers, as page counts and
page sizes are, and an integer is read as the double nearest to it, as a
numeric literal is. -/

/-- A JavaScript number that is a double of integer value, an infinity or
NaN. -/
inductive JsNumber where
  | finite (n : Int)
  | infinite (negative : Bool)
  | nan

/-- The least `e` from the given one on with `m / 2 ^ e < 2 ^ 53`: the binary
exponent of the double nearest to `m`. -/
def doubleExponent : Nat → Nat → Nat → Nat
  | 0, _, e => e
  | fuel + 1, m, e => if m / 2 ^ e < 2 ^ 53 then e else doubleExponent fuel m (e + 1)

/-- The double nearest to a natural number, ties to even; `none` when it is
an infinity, which is when the rounded value `q1 * 2 ^ e` reaches `2 ^ 1024`:
the exponent is above 971, or it is 971 and the significand was rounded up
to `2 ^ 53`. -/
def roundNat (m : Nat) : Option Nat :=
  let e := doubleExponent 1075 m 0
  if e = 0 then some m
  else
    let q := m / 2 ^ e
    let r := m % 2 ^ e
    let half := 2 ^ (e - 1)
    let q1 := if half < r ∨ (r = half ∧ q % 2 = 1) then q + 1 else q
    if e ≤ 971 ∧ (q1 < 2 ^ 53 ∨ e < 971) then some (q1 * 2 ^ e) else none

/-- The double nearest to an integer. -/
def JsNumber.ofInt (n : Int) : JsNumber :=
  match roundNat n.natAbs with
  | some v => .finite (if n < 0 then -(v : Int) else (v : Int))
  | none => .infinite (decide (n < 0))

/-- The operator `x - k` for an integer `k`. -/
def JsNumber.sub (x : JsNumber) (k : Int) : JsNumber :=
  match x with
  | .finite n => JsNumber.ofInt (n - k)
  | .infinite negative => .infinite negative
  | .nan => .nan

/-- The operator `x * y`. -/
def JsNumber.mul : JsNumber → JsNumber → JsNumber
  | .finite a, .finite b => JsNumber.ofInt (a * b)
  | .finite a, .infinite negative =>
    if a = 0 then .nan else .infinite (xor (decide (a < 0)) negative)
  | .infinite negative, .finite b =>
    if b = 0 then .nan else .infinite (xor negative (decide (b < 0)))
  | .infinite s, .infinite t => .infinite (xor s t)
  | .nan, _ => .nan
  | _, .nan => .nan

/-- The decimal `c` reads back as the double `v`. -/
def roundsTo (c v : Nat) : Bool := decide (roundNat c = some v)

/-- The decimal with the fewest significant digits that reads back as the
double `v`, searched from the power of ten `10 ^ j` downwards; of two
candidates the nearer one, and the even one when they are as near. -/
def shortestDecimal (v : Nat) : Nat → Nat
  | 0 => v
  | j + 1 =>
    let p := 10 ^ (j + 1)
    let lo := v / p * p
    let hi := lo + p
    if roundsTo lo v && roundsTo hi v then
      (if v - lo < hi - v ∨ (v - lo = hi - v ∧ (lo / p) % 2 = 0) then lo else hi)
    else if roundsTo lo v then lo
    else if roundsTo hi v then hi
    else shortestDecimal v j

/-- The exponent form `d.ddde+x` of a decimal of more than 21 digits. -/
def exponentText (c : Nat) : String :=
  let digits := (toString c).toList
  match (digits.reverse.dropWhile (fun d => d == '0')).reverse with
  | [] => "0"
  | d :: rest =>
    String.mk (d :: (if rest.isEmpty then [] else '.' :: rest)) ++ "e+" ++
      toString (digits.length - 1)

/-- The text of a double of value `v` at least `2 ^ 53`. -/
def bigNatText (v : Nat) : String :=
  let c := shortestDecimal v (toString v).length
  if c < 10 ^ 21 then toString c else exponentText c

/-- Number to string, as applied by a template literal: the decimal digits of
an integer below `2 ^ 53`, the shortest decimal that reads back beyond. -/
def JsNumber.toText : JsNumber → String
  | .nan => "NaN"
  | .infinite false => "Infinity"
  | .infinite true => "-Infinity"
  | .finite n =>
    if n.natAbs < 2 ^ 53 then toString n
    else (if n < 0 then "-" else "") ++ bigNatText n.natAbs

/-- The comparison `v === x` against a number `x`. -/
def JsVal.strictEqNumber (v : JsVal) (x : JsNumber) : Bool :=
  match x with
  | .finite n => v.strictEqNum n
  | _ => false

/-- The code points of a JavaScript string given by its UTF-16 code units;
`none` when a surrogate stands alone. -/
def decodeUtf16 : List Nat → Option (List Char)
  | [] => some []
  | u :: rest =>
    if u % 65536 < 55296 ∨ 57343 < u % 65536 then
      (decodeUtf16 rest).map (fun cs => Char.ofNat (u % 65536) :: cs)
    else if u % 65536 < 56320 then
      match rest with
      | [] => none
      | l :: rest2 =>
        if 56320 ≤ l % 65536 ∧ l % 65536 ≤ 57343 then
          (decodeUtf16 rest2).map (fun cs =>
            Char.ofNat (65536 + (u % 65536 - 55296) * 1024 + (l % 65536 - 56320)) :: cs)
        else none
    else none

/-- The error `encodeURIComponent` throws on a lone surrogate. -/
def uriError : JsError := ⟨"URIError", "URI malformed"⟩

/-- The builtin `encodeURIComponent` on a JavaScript string. -/
def encodeURIComponentUnits (query : List Nat) : Except JsError String :=
  match decodeUtf16 query with
  | some cs => .ok (encodeURIComponent (String.mk cs))
  | none => .error uriError

/-- The object literal returned by `searchBooks`, the limit being a
double. -/
def openLibraryAPI.searchResult (data : JsVal) (limit : JsNumber) :
    Except JsError SearchResult := do
  let docs ← data.getProp "docs"
  let numFound ← data.getProp "numFound"
  let hasMore ←
    if docs.truthy then do
      let len ← docs.getProp "length"
      pure (JsVal.bool (len.strictEqNumber limit))
    else pure docs
  pure { books := docs.or (.arr []), totalResults := numFound.or (.num 0), hasMore := hasMore }

/-- The `switch` of `searchBooks` on a JavaScript string: the value of
`searchParam`, or what `encodeURIComponent` throws. -/
def openLibraryAPI.searchParam (query : List Nat) (type : JsVal) : Except JsError String :=
  if type.strictEqStr "title" then (encodeURIComponentUnits query).map (fun e => "title=" ++ e)
  else if type.strictEqStr "author" then
    (encodeURIComponentUnits query).map (fun e => "author=" ++ e)
  else (encodeURIComponentUnits query).map (fun e => "q=" ++ e)

/-- The local `offset` of `searchBooks`, computed in doubles. -/
def openLibraryAPI.searchOffset (page limit : Int) : JsNumber :=
  ((JsNumber.ofInt page).sub 1).mul (JsNumber.ofInt limit)

/-- The local `url` of `searchBooks`, or what was thrown before it was
built. -/
def openLibraryAPI.searchUrl (query : List Nat) (type : JsVal) (page limit : Int) :
    Except JsError String :=
  (openLibraryAPI.searchParam query type).map (fun param =>
    BASE_URL ++ "/search.json?" ++ param ++ "&limit=" ++ (JsNumber.ofInt limit).toText ++
      "&offset=" ++ (openLibraryAPI.searchOffset page limit).toText ++ "&fields=" ++
      searchFields)

/-- The `try` block of `searchBooks` after `fetch` has settled, the limit
being a double. -/
def openLibraryAPI.searchBooksTry (settled : FetchOutcome) (limit : JsNumber) :
    Except JsError SearchResult :=
  match settled with
  | .rejected reason => .error reason
  | .resolved response =>
    if !response.ok then .error (httpError response.status)
    else
      match response.body with
      | none => .error jsonSyntaxError
      | some data => openLibraryAPI.searchResult data limit

/-- The service function `openLibraryAPI.searchBooks(query, type, page, limit)`
on every JavaScript string and all integers `page` and `limit`: the offset is
computed, the query is encoded inside the `try` block, and only then is
`fetch` called; the `catch` block logs the cause and throws `searchFailure`. -/
def openLibraryAPI.searchBooks (net : String → FetchOutcome) (query : List Nat) (type : JsVal)
    (page limit : Int) : Run SearchResult :=
  match openLibraryAPI.searchUrl query type page limit with
  | .error cause => { requests := [], logged := [cause], outcome := .error searchFailure }
  | .ok url =>
    match openLibraryAPI.searchBooksTry (net url) (JsNumber.ofInt limit) with
    | .ok result => { requests := [url], logged := [], outcome := .ok result }
    | .error cause => { requests := [url], logged := [cause], outcome := .error searchFailure }

/-! ## Sample inputs -/

/-- A sample record of the provider. -/
def sampleBook (n : Nat) : JsVal :=
  .obj [("key", .str ("/works/OL" ++ toString n ++ "W")), ("title", .str "Dune"),
        ("cover_i", .num 12345)]

/-- A sample response body: `count` records and the given `numFound`. -/
def samplePage (count : Nat) (numFound : Int) : JsVal :=
  .obj [("numFound", .num numFound), ("docs", .arr ((List.range count).map sampleBook))]

/-- A network on which every request is answered with status 200 and the
given parsed body. -/
def sampleNet (body : JsVal) : String → FetchOutcome :=
  fun _ => .resolved ⟨200, some body⟩

/-- A network on which every request fails in transport. -/
def downNet : String → FetchOutcome :=
  fun _ => .rejected ⟨"TypeError", "Failed to fetch"⟩

/-- The outcome of `searchBooks` for `query` and `page` on the network that
answers with `count` records and the given `numFound`. -/
def sampleOutcome (count : Nat) (numFound : Int) (query : String) (page : Int) :
    Except JsError SearchResult :=
  (searchBooks (sampleNet (samplePage count numFound)) query .undefined page defaultLimit).outcome

/-- A sample response body of the details endpoint. -/
def sampleDetails (text : String) : JsVal :=
  .obj [("key", .str "/works/OL1W"), ("description", .str text)]

/-- A run of the page: "dune" is searched and twenty books arrive, the next
page is asked for, and while that fetch is pending "zzzz" is searched and
comes back with no book.  The fetch of the next page is still pending at the
end. -/
def searchDuringLoadMore : List Event :=
  [.search "dune" .undefined, .searchSettled (sampleOutcome 20 57 "dune" 1), .timer,
   .loadMore,
   .search "zzzz" .undefined, .searchSettled (sampleOutcome 0 0 "zzzz" 1), .timer]

/-- A network that answers the first page of "dune" with twenty records and
every other request with seven. -/
def pagedNet : String → FetchOutcome :=
  fun url =>
    if url = searchUrl "dune" .undefined 1 20 then .resolved ⟨200, some (samplePage 20 27)⟩
    else .resolved ⟨200, some (samplePage 7 27)⟩

/-- The items of the pages served by `pagedNet`. -/
def pagedItems (k : Nat) : List JsVal :=
  if k = 1 then (List.range 20).map sampleBook else (List.range 7).map sampleBook

/-- The query "dune" as the UTF-16 code units that `searchBooks` receives. -/
def duneUnits : List Nat := [100, 117, 110, 101]

/-- A query holding a lone high surrogate between "d" and "e", the string
written "d\uD800e" in JavaScript. -/
def brokenUnits : List Nat := [100, 55296, 101]

/-- A query that is a lone low surrogate, the string written "\uDC00". -/
def lowSurrogateUnits : List Nat := [56320]

/-- A record of the provider without a `key`. -/
def keylessBook : JsVal := .obj [("title", .str "Dune")]

/-- The page after mounting: nothing searched, nothing selected. -/
def mountedPage : AppState × Modal := (AppState.initial, Modal.initial)

/-- Book 1 is selected, the modal is closed, and book 2 is selected; neither
detail fetch has settled. -/
def twoSelections : AppState × Modal :=
  selectItem (clearSelection (selectItem mountedPage (sampleBook 1))) (sampleBook 2)

/-- Book 1 is selected and its details arrive. -/
def detailsShown : AppState × Modal :=
  detailSettled (selectItem mountedPage (sampleBook 1)) (.ok (sampleDetails "About book 1."))

/-! ## Lemmas on the service functions -/

/-- A property read fails on `undefined` and `null` only, whatever the
property. -/
theorem getProp_ok_iff (v : JsVal) (name : String) :
    (∃ x, v.getProp name = .ok x) ↔ (v ≠ .undefined ∧ v ≠ .null) := by
  cases v <;> simp [JsVal.getProp]
  all_goals split <;> simp

/-- A truthy value has every property read succeed. -/
theorem getProp_ok_of_truthy (v : JsVal) (name : String) (h : v.truthy = true) :
    ∃ x, v.getProp name = .ok x := by
  rw [getProp_ok_iff]
  cases v <;> simp [JsVal.truthy] at h ⊢

/-- The run of `searchBooks` requests the search URL once, however the
request settles. -/
theorem searchBooks_requests (net : String → FetchOutcome) (query : String) (type : JsVal)
    (page limit : Int) :
    (searchBooks net query type page limit).requests = [searchUrl query type page limit] := by
  unfold searchBooks
  dsimp only
  split <;> rfl

/-- The promise returned by `searchBooks` settles as its `try` block does,
with every error replaced by `searchFailure`. -/
theorem searchBooks_outcome (net : String → FetchOutcome) (query : String) (type : JsVal)
    (page limit : Int) :
    (searchBooks net query type page limit).outcome =
      match searchBooksTry (net (searchUrl query type page limit)) limit with
      | .ok result => .ok result
      | .error _ => .error searchFailure := by
  unfold searchBooks
  dsimp only
  split <;> rfl

/-- On a response that is `ok` and whose body parsed to `data`, the `try`
block is the construction of the result object. -/
theorem searchBooksTry_resolved (status : Nat) (data : JsVal) (limit : Int)
    (hok : Response.ok ⟨status, some data⟩ = true) :
    searchBooksTry (.resolved ⟨status, some data⟩) limit = searchResultOf data limit := by
  simp [searchBooksTry, hok]

/-- The result object, field by field, for a body whose `docs` and `numFound`
can be read. -/
theorem searchResultOf_fields (data docs numFound : JsVal) (limit : Int)
    (hdocs : data.getProp "docs" = .ok docs) (hnum : data.getProp "numFound" = .ok numFound) :
    ∃ r, searchResultOf data limit = .ok r ∧
      r.books = docs.or (.arr []) ∧ r.totalResults = numFound.or (.num 0) ∧
      (docs.truthy = false → r.hasMore = docs) ∧
      (∀ len, docs.truthy = true → docs.getProp "length" = .ok len →
        r.hasMore = .bool (len.strictEqNum limit)) := by
  unfold searchResultOf
  rw [hdocs, hnum]
  by_cases ht : docs.truthy = true
  · obtain ⟨len, hlen⟩ := getProp_ok_of_truthy docs "length" ht
    refine ⟨⟨docs.or (.arr []), numFound.or (.num 0), .bool (len.strictEqNum limit)⟩, ?_, rfl, rfl, ?_, ?_⟩
    · simp [ht, hlen, bind, Except.bind, pure, Except.pure]
    · intro hf; simp [hf] at ht
    · intro len2 _ hlen2
      rw [hlen] at hlen2
      cases hlen2
      rfl
  · have hf : docs.truthy = false := by simpa using ht
    refine ⟨⟨docs.or (.arr []), numFound.or (.num 0), docs⟩, ?_, rfl, rfl, ?_, ?_⟩
    · simp [hf, bind, Except.bind, pure, Except.pure]
    · intro _; rfl
    · intro len2 h; simp [hf] at h

/-- The result object can be built exactly when the parsed body is neither
`null` nor `undefined`. -/
theorem searchResultOf_ok_iff (data : JsVal) (limit : Int) :
    (∃ r, searchResultOf data limit = .ok r) ↔ (data ≠ .undefined ∧ data ≠ .null) := by
  constructor
  · rintro ⟨r, hr⟩
    constructor
    · rintro rfl
      simp [searchResultOf, JsVal.getProp, bind, Except.bind] at hr
    · rintro rfl
      simp [searchResultOf, JsVal.getProp, bind, Except.bind] at hr
  · intro h
    obtain ⟨docs, hdocs⟩ := (getProp_ok_iff data "docs").mpr h
    obtain ⟨numFound, hnum⟩ := (getProp_ok_iff data "numFound").mpr h
    obtain ⟨r, hr, _⟩ := searchResultOf_fields data docs numFound limit hdocs hnum
    exact ⟨r, hr⟩

/-- On a response that is `ok` and whose parsed body has readable `docs` and
`numFound`, `searchBooks` succeeds, and its result is given field by field. -/
theorem searchBooks_resolved (net : String → FetchOutcome) (query : String) (type : JsVal)
    (page limit : Int) (status : Nat) (data docs numFound : JsVal)
    (hnet : net (searchUrl query type page limit) = .resolved ⟨status, some data⟩)
    (hok : Response.ok ⟨status, some data⟩ = true)
    (hdocs : data.getProp "docs" = .ok docs)
    (hnum : data.getProp "numFound" = .ok numFound) :
    ∃ r, (searchBooks net query type page limit).outcome = .ok r ∧
      r.books = docs.or (.arr []) ∧ r.totalResults = numFound.or (.num 0) ∧
      (docs.truthy = false → r.hasMore = docs) ∧
      (∀ items, docs = .arr items →
        r.hasMore = .bool (decide ((items.length : Int) = limit))) := by
  obtain ⟨r, hr, hbooks, htotal, hfalsy, htruthy⟩ :=
    searchResultOf_fields data docs numFound limit hdocs hnum
  refine ⟨r, ?_, hbooks, htotal, hfalsy, ?_⟩
  · rw [searchBooks_outcome, hnet, searchBooksTry_resolved status data limit hok, hr]
  · rintro items rfl
    rw [htruthy (.num items.length) rfl (by simp [JsVal.getProp])]
    rfl

/-- Every error thrown by `searchBooks` is `searchFailure`. -/
theorem searchBooks_error_eq (net : String → FetchOutcome) (query : String) (type : JsVal)
    (page limit : Int) (e : JsError)
    (he : (searchBooks net query type page limit).outcome = .error e) : e = searchFailure := by
  rw [searchBooks_outcome] at he
  split at he
  · cases he
  · cases he
    rfl

/-- The operator `n || 0` on a number is the number. -/
theorem num_or_zero (n : Int) : (JsVal.num n).or (.num 0) = .num n := by
  by_cases hn : n = 0
  · subst hn; rfl
  · simp [JsVal.or, JsVal.truthy, hn]

/-! ## Lemmas on the numbers and strings of `openLibraryAPI.searchBooks` -/

/-- A natural number below `2 ^ 53` is a double. -/
theorem roundNat_small (m : Nat) (h : m < 2 ^ 53) : roundNat m = some m := by
  have he : doubleExponent (1074 + 1) m 0 = 0 := by
    rw [doubleExponent, pow_zero, Nat.div_one, if_pos h]
  have he2 : doubleExponent 1075 m 0 = 0 := he
  simp only [roundNat, he2, if_true]

/-- An integer of absolute value below `2 ^ 53` is a double. -/
theorem ofInt_small (n : Int) (h : n.natAbs < 2 ^ 53) : JsNumber.ofInt n = .finite n := by
  unfold JsNumber.ofInt
  rw [roundNat_small n.natAbs h]
  simp only
  congr 1
  split <;> omega

/-- An integer of absolute value below `2 ^ 53` is printed in decimal. -/
theorem toText_small (n : Int) (h : n.natAbs < 2 ^ 53) :
    (JsNumber.finite n).toText = toString n := by
  show (if n.natAbs < 2 ^ 53 then toString n
      else (if n < 0 then "-" else "") ++ bigNatText n.natAbs) = toString n
  rw [if_pos h]

/-- Where the numbers involved stay below `2 ^ 53`, the offset computed in
doubles is the exact product. -/
theorem searchOffset_exact (page limit : Int) (hp : page.natAbs < 2 ^ 53)
    (hp1 : (page - 1).natAbs < 2 ^ 53) (hl : limit.natAbs < 2 ^ 53)
    (hprod : ((page - 1) * limit).natAbs < 2 ^ 53) :
    openLibraryAPI.searchOffset page limit = .finite (searchOffset page limit) := by
  simp only [openLibraryAPI.searchOffset, ofInt_small page hp, JsNumber.sub,
    ofInt_small (page - 1) hp1, ofInt_small limit hl, JsNumber.mul,
    ofInt_small ((page - 1) * limit) hprod, searchOffset]

/-- With a finite limit the result object is the one built with exact
integers. -/
theorem searchResult_finite (data : JsVal) (limit : Int) :
    openLibraryAPI.searchResult data (.finite limit) = searchResultOf data limit := rfl

/-- With a finite limit the `try` block is the one computing with exact
integers. -/
theorem searchBooksTry_finite (settled : FetchOutcome) (limit : Int) :
    openLibraryAPI.searchBooksTry settled (.finite limit) = searchBooksTry settled limit := by
  unfold openLibraryAPI.searchBooksTry searchBooksTry
  rfl

/-- On a string without lone surrogate the `switch` gives the parameter of
the decoded text. -/
theorem searchParam_decoded (query : List Nat) (cs : List Char) (type : JsVal)
    (hq : decodeUtf16 query = some cs) :
    openLibraryAPI.searchParam query type = .ok (searchParam (String.mk cs) type) := by
  have henc : encodeURIComponentUnits query = .ok (encodeURIComponent (String.mk cs)) := by
    simp only [encodeURIComponentUnits, hq]
  unfold openLibraryAPI.searchParam searchParam
  rw [henc]
  split
  · rfl
  · split <;> rfl

/-- On a string with a lone surrogate the `switch` throws. -/
theorem searchParam_undecodable (query : List Nat) (type : JsVal)
    (hq : decodeUtf16 query = none) :
    openLibraryAPI.searchParam query type = .error uriError := by
  have henc : encodeURIComponentUnits query = .error uriError := by
    simp only [encodeURIComponentUnits, hq]
  unfold openLibraryAPI.searchParam
  rw [henc]
  split
  · rfl
  · split <;> rfl

/-- On a string with a lone surrogate `searchBooks` requests nothing and
fails with `searchFailure`. -/
theorem searchBooks_undecodable (net : String → FetchOutcome) (query : List Nat) (type : JsVal)
    (page limit : Int) (hq : decodeUtf16 query = none) :
    openLibraryAPI.searchBooks net query type page limit =
      { requests := [], logged := [uriError], outcome := .error searchFailure } := by
  simp only [openLibraryAPI.searchBooks, openLibraryAPI.searchUrl,
    searchParam_undecodable query type hq, Except.map]

/-- On a string without lone surrogate and on numbers that stay below
`2 ^ 53`, `searchBooks` is the function computing on the decoded text with
exact integers. -/
theorem searchBooks_agrees (net : String → FetchOutcome) (query : List Nat) (cs : List Char)
    (type : JsVal) (page limit : Int) (hq : decodeUtf16 query = some cs)
    (hp : page.natAbs < 2 ^ 53) (hp1 : (page - 1).natAbs < 2 ^ 53)
    (hl : limit.natAbs < 2 ^ 53) (hprod : ((page - 1) * limit).natAbs < 2 ^ 53) :
    openLibraryAPI.searchBooks net query type page limit =
      searchBooks net (String.mk cs) type page limit := by
  have hurl : openLibraryAPI.searchUrl query type page limit =
      .ok (searchUrl (String.mk cs) type page limit) := by
    simp only [openLibraryAPI.searchUrl, searchParam_decoded query cs type hq, Except.map,
      searchOffset_exact page limit hp hp1 hl hprod, ofInt_small limit hl,
      toText_small limit hl, toText_small _ hprod, searchUrl, searchOffset]
  simp only [openLibraryAPI.searchBooks, hurl, ofInt_small limit hl, searchBooksTry_finite,
    searchBooks]

/-- The general result object can be built exactly when the parsed body is
neither `null` nor `undefined`. -/
theorem searchResult_ok_iff (data : JsVal) (limit : JsNumber) :
    (∃ r, openLibraryAPI.searchResult data limit = .ok r) ↔
      (data ≠ .undefined ∧ data ≠ .null) := by
  constructor
  · rintro ⟨r, hr⟩
    constructor
    · rintro rfl
      simp [openLibraryAPI.searchResult, JsVal.getProp, bind, Except.bind] at hr
    · rintro rfl
      simp [openLibraryAPI.searchResult, JsVal.getProp, bind, Except.bind] at hr
  · intro h
    obtain ⟨docs, hdocs⟩ := (getProp_ok_iff data "docs").mpr h
    obtain ⟨numFound, hnum⟩ := (getProp_ok_iff data "numFound").mpr h
    unfold openLibraryAPI.searchResult
    rw [hdocs, hnum]
    by_cases ht : docs.truthy = true
    · obtain ⟨len, hlen⟩ := getProp_ok_of_truthy docs "length" ht
      simp [ht, hlen, bind, Except.bind, pure, Except.pure]
    · have hf : docs.truthy = false := by simpa using ht
      simp [hf, bind, Except.bind, pure, Except.pure]

/-- The general `try` block fails exactly on a transport failure, a status
outside 200-299, a body that does not parse, or a body that parses to
`null`. -/
theorem searchBooksTry_error_iff (settled : FetchOutcome) (limit : JsNumber) :
    (∃ e, openLibraryAPI.searchBooksTry settled limit = .error e) ↔
      ((∃ reason, settled = .rejected reason) ∨
        ∃ response, settled = .resolved response ∧
          (response.ok = false ∨ response.body = none ∨ response.body = some .null ∨
            response.body = some .undefined)) := by
  cases settled with
  | rejected reason => simp [openLibraryAPI.searchBooksTry]
  | resolved response =>
    obtain ⟨status, body⟩ := response
    by_cases hok : Response.ok ⟨status, body⟩ = true
    · cases body with
      | none => simp [openLibraryAPI.searchBooksTry, hok]
      | some data =>
        have hiff := searchResult_ok_iff data limit
        cases hres : openLibraryAPI.searchResult data limit with
        | ok r =>
          have hd := hiff.mp ⟨r, hres⟩
          simp [openLibraryAPI.searchBooksTry, hok, hres, hd.1, hd.2]
        | error e =>
          have hd : ¬ (data ≠ .undefined ∧ data ≠ .null) := by
            intro h
            obtain ⟨r, hr⟩ := hiff.mpr h
            rw [hres] at hr
            cases hr
          simp [openLibraryAPI.searchBooksTry, hok, hres]
          by_contra hcon
          exact hd ⟨fun h => hcon (Or.inr h), fun h => hcon (Or.inl h)⟩
    · have hf : Response.ok ⟨status, body⟩ = false := by simpa using hok
      simp [openLibraryAPI.searchBooksTry, hf]

/-- Once the URL is built, the run requests it once and settles as the
general `try` block does, every error replaced by `searchFailure`. -/
theorem searchBooks_built (net : String → FetchOutcome) (query : List Nat) (type : JsVal)
    (page limit : Int) (url : String)
    (hurl : openLibraryAPI.searchUrl query type page limit = .ok url) :
    (openLibraryAPI.searchBooks net query type page limit).requests = [url] ∧
    (openLibraryAPI.searchBooks net query type page limit).outcome =
      match openLibraryAPI.searchBooksTry (net url) (JsNumber.ofInt limit) with
      | .ok result => .ok result
      | .error _ => .error searchFailure := by
  simp only [openLibraryAPI.searchBooks, hurl]
  split <;> exact ⟨rfl, rfl⟩

/-- The URL is built exactly when the query holds no lone surrogate. -/
theorem searchUrl_decoded (query : List Nat) (cs : List Char) (type : JsVal) (page limit : Int)
    (hq : decodeUtf16 query = some cs) :
    openLibraryAPI.searchUrl query type page limit =
      .ok (BASE_URL ++ "/search.json?" ++ searchParam (String.mk cs) type ++ "&limit=" ++
        (JsNumber.ofInt limit).toText ++ "&offset=" ++
        (openLibraryAPI.searchOffset page limit).toText ++ "&fields=" ++ searchFields) := by
  simp only [openLibraryAPI.searchUrl, searchParam_decoded query cs type hq, Except.map]

/-! ## Claims on `searchBooks` and `getCoverUrl` -/

/-- The `switch` of `searchBooks` names the parameter `title` for the type
`'title'`, `author` for the type `'author'` and `q` for every other type,
`undefined` included. -/
theorem searchParam_name (query : String) (type : JsVal) :
    ∃ name : String, searchParam query type = name ++ "=" ++ encodeURIComponent query ∧
      (type = .str "title" → name = "title") ∧
      (type = .str "author" → name = "author") ∧
      (type ≠ .str "title" → type ≠ .str "author" → name = "q") := by
  by_cases ht : type = .str "title"
  · refine ⟨"title", ?_, fun _ => rfl, ?_, ?_⟩
    · subst ht
      simp [searchParam, JsVal.strictEqStr]
    · intro h; rw [ht] at h; simp at h
    · intro h; exact absurd ht h
  · by_cases ha : type = .str "author"
    · refine ⟨"author", ?_, ?_, fun _ => rfl, ?_⟩
      · subst ha
        simp [searchParam, JsVal.strictEqStr]
      · intro h; exact absurd h ht
      · intro _ h; exact absurd ha h
    · refine ⟨"q", ?_, ?_, ?_, fun _ _ => rfl⟩
      · have h1 : type.strictEqStr "title" = false := by
          cases type <;> simp_all [JsVal.strictEqStr]
        have h2 : type.strictEqStr "author" = false := by
          cases type <;> simp_all [JsVal.strictEqStr]
        simp [searchParam, h1, h2]
      · intro h; exact absurd h ht
      · intro h; exact absurd h ha

set_option maxRecDepth 20000 in
/-- C1, counterexample: a query holding a lone surrogate, asked for page 1
with limit 20 on a network that would answer, issues no request at all,
because `encodeURIComponent` throws inside the `try` block before `fetch` is
reached; and page 9007199254740992 with limit 20 issues one request whose
offset parameter is 180143985094819800, the text of the double nearest the
product, where `(page - 1) * limit` is 180143985094819820. -/
theorem lone_surrogate_issues_no_request :
    (openLibraryAPI.searchBooks (sampleNet (samplePage 20 57)) brokenUnits (.str "title")
      1 20).requests = [] ∧
    (openLibraryAPI.searchBooks (sampleNet (samplePage 20 57)) brokenUnits (.str "title")
      1 20).outcome = .error searchFailure ∧
    (openLibraryAPI.searchBooks downNet duneUnits (.str "title") 9007199254740992 20).requests =
      ["https://openlibrary.org/search.json?title=dune&limit=20&offset=180143985094819800&fields=key,title,author_name,first_publish_year,cover_i,isbn,publisher,number_of_pages_median"] ∧
    toString (((9007199254740992 : Int) - 1) * 20) = "180143985094819820" :=
  ⟨rfl, rfl, by decide, by decide⟩

/-- C1, amended: for every query text that holds no lone surrogate, every
type and all integers `page` and `limit`, `searchBooks` passes exactly one URL
to `fetch`; its query parameter is named `title` for the type `'title'`,
`author` for the type `'author'` and `q` for every other type, `undefined`
included, and its limit and offset parameters are the texts of the numbers
`limit` and `(page - 1) * limit` as computed in double precision.  For
`page ≥ 1` and `limit > 0` with `page`, `limit` and `(page - 1) * limit` below
`2 ^ 53`, the offset is `(page - 1) * limit` exactly, a non-negative number,
and both parameters are written in decimal.  For a query text that holds a
lone surrogate no request is issued and the call fails. -/
theorem searchBooks_single_request (net : String → FetchOutcome) (query : List Nat)
    (type : JsVal) (page limit : Int) :
    (∀ cs, decodeUtf16 query = some cs →
      ∃ name : String,
        (openLibraryAPI.searchBooks net query type page limit).requests =
          [BASE_URL ++ "/search.json?" ++ name ++ "=" ++ encodeURIComponent (String.mk cs) ++
            "&limit=" ++ (JsNumber.ofInt limit).toText ++ "&offset=" ++
            (openLibraryAPI.searchOffset page limit).toText ++ "&fields=" ++ searchFields] ∧
        (type = .str "title" → name = "title") ∧
        (type = .str "author" → name = "author") ∧
        (type ≠ .str "title" → type ≠ .str "author" → name = "q")) ∧
    (1 ≤ page → 0 < limit → page < 2 ^ 53 → limit < 2 ^ 53 → (page - 1) * limit < 2 ^ 53 →
      openLibraryAPI.searchOffset page limit = .finite ((page - 1) * limit) ∧
      0 ≤ (page - 1) * limit ∧
      (openLibraryAPI.searchOffset page limit).toText = toString ((page - 1) * limit) ∧
      (JsNumber.ofInt limit).toText = toString limit) ∧
    (decodeUtf16 query = none →
      (openLibraryAPI.searchBooks net query type page limit).requests = [] ∧
      (openLibraryAPI.searchBooks net query type page limit).outcome = .error searchFailure) := by
  refine ⟨?_, ?_, ?_⟩
  · intro cs hq
    obtain ⟨name, hp, h1, h2, h3⟩ := searchParam_name (String.mk cs) type
    refine ⟨name, ?_, h1, h2, h3⟩
    rw [(searchBooks_built net query type page limit _
      (searchUrl_decoded query cs type page limit hq)).1, hp]
    simp only [String.append_assoc]
  · intro hpage hlimit hp hl hprod
    have hoff : 0 ≤ (page - 1) * limit := Int.mul_nonneg (by omega) (by omega)
    have hpn : page.natAbs < 2 ^ 53 := by omega
    have hp1 : (page - 1).natAbs < 2 ^ 53 := by omega
    have hln : limit.natAbs < 2 ^ 53 := by omega
    have hprodn : ((page - 1) * limit).natAbs < 2 ^ 53 := by
      generalize (page - 1) * limit = x at hoff hprod
      omega
    have hexact := searchOffset_exact page limit hpn hp1 hln hprodn
    refine ⟨hexact, hoff, ?_, ?_⟩
    · rw [hexact]
      exact toText_small _ hprodn
    · rw [ofInt_small limit hln]
      exact toText_small limit hln
  · intro hq
    rw [searchBooks_undecodable net query type page limit hq]
    exact ⟨rfl, rfl⟩

/-- Witness of C1: page 2 of a title search for "dune", twenty per page, and
the same search for a query holding a lone surrogate. -/
theorem searchBooks_single_request_witness :
    decodeUtf16 duneUnits = some ['d', 'u', 'n', 'e'] ∧
    (∃ name : String,
      (openLibraryAPI.searchBooks downNet duneUnits (.str "title") 2 20).requests =
        [BASE_URL ++ "/search.json?" ++ name ++ "=" ++
          encodeURIComponent (String.mk ['d', 'u', 'n', 'e']) ++
          "&limit=" ++ (JsNumber.ofInt 20).toText ++ "&offset=" ++
          (openLibraryAPI.searchOffset 2 20).toText ++ "&fields=" ++ searchFields] ∧
      (JsVal.str "title" = .str "title" → name = "title") ∧
      (JsVal.str "title" = .str "author" → name = "author") ∧
      (JsVal.str "title" ≠ .str "title" → JsVal.str "title" ≠ .str "author" → name = "q")) ∧
    (openLibraryAPI.searchOffset 2 20 = .finite ((2 - 1) * 20) ∧
      (0 : Int) ≤ (2 - 1) * 20 ∧
      (openLibraryAPI.searchOffset 2 20).toText = toString (((2 : Int) - 1) * 20) ∧
      (JsNumber.ofInt 20).toText = toString (20 : Int)) ∧
    decodeUtf16 brokenUnits = none ∧
    ((openLibraryAPI.searchBooks downNet brokenUnits (.str "title") 2 20).requests = [] ∧
      (openLibraryAPI.searchBooks downNet brokenUnits (.str "title") 2 20).outcome =
        .error searchFailure) :=
  ⟨by decide,
    (searchBooks_single_request downNet duneUnits (.str "title") 2 20).1 _ (by decide),
    (searchBooks_single_request downNet duneUnits (.str "title") 2 20).2.1 (by decide) (by decide)
      (by decide) (by decide) (by decide),
    by decide,
    (searchBooks_single_request downNet brokenUnits (.str "title") 2 20).2.2 (by decide)⟩

/-- C2, counterexample: a successful response without `docs`, asked with
limit 20, yields the empty books list, whose length is not 20, and yet
`hasMore` is `undefined`, not the boolean `false`. -/
theorem absent_docs_gives_undefined :
    ∃ r, (searchBooks (sampleNet (.obj [("numFound", .num 0)])) "dune" (.str "q") 1 20).outcome
        = .ok r ∧
      r.books = .arr [] ∧ r.hasMore = .undefined ∧ r.hasMore ≠ .bool false :=
  ⟨⟨.arr [], .num 0, .undefined⟩, rfl, rfl, rfl, by simp⟩

/-- C2, amended: for every successful response and every `limit > 0`,
`hasMore` is truthy if and only if the number of items of the returned books
list equals `limit`; it is the boolean `true` or `false` accordingly when
`docs` is a list, and it is `undefined` (falsy, not a boolean) when `docs` is
absent. -/
theorem searchBooks_hasMore (net : String → FetchOutcome) (query : String) (type : JsVal)
    (page limit : Int) (status : Nat) (data docs : JsVal) (hlimit : 0 < limit)
    (hnet : net (searchUrl query type page limit) = .resolved ⟨status, some data⟩)
    (hok : Response.ok ⟨status, some data⟩ = true)
    (hdocs : data.getProp "docs" = .ok docs) :
    ∃ r, (searchBooks net query type page limit).outcome = .ok r ∧
      (∀ items, docs = .arr items →
        r.books = .arr items ∧ r.hasMore = .bool (decide ((items.length : Int) = limit))) ∧
      (docs = .undefined → r.books = .arr [] ∧ r.hasMore = .undefined) ∧
      (∀ items, r.books = .arr items →
        (r.hasMore.truthy = true ↔ (items.length : Int) = limit)) := by
  obtain ⟨numFound, hnum⟩ :=
    (getProp_ok_iff data "numFound").mpr ((getProp_ok_iff data "docs").mp ⟨docs, hdocs⟩)
  obtain ⟨r, hr, hbooks, _, hfalsy, htruthy⟩ :=
    searchBooks_resolved net query type page limit status data docs numFound hnet hok hdocs hnum
  refine ⟨r, hr, ?_, ?_, ?_⟩
  · rintro items rfl
    exact ⟨by rw [hbooks]; rfl, htruthy items rfl⟩
  · rintro rfl
    exact ⟨by rw [hbooks]; rfl, hfalsy rfl⟩
  · intro items hitems
    by_cases ht : docs.truthy = true
    · have hd : docs = .arr items := by
        rw [hbooks, JsVal.or, if_pos ht] at hitems
        exact hitems
      rw [htruthy items hd]
      simp [JsVal.truthy]
    · have hf : docs.truthy = false := by simpa using ht
      have hd : items = [] := by
        rw [hbooks, JsVal.or, if_neg ht] at hitems
        cases hitems
        rfl
      subst hd
      rw [hfalsy hf, hf]
      simp
      omega

/-- Witness of C2: seven records of a requested twenty give the boolean
`false`. -/
theorem searchBooks_hasMore_witness :
    ∃ r, (searchBooks (sampleNet (samplePage 7 57)) "dune" (.str "q") 1 20).outcome = .ok r ∧
      r.hasMore = .bool false := by
  obtain ⟨r, hr, harr, _⟩ :=
    searchBooks_hasMore (sampleNet (samplePage 7 57)) "dune" (.str "q") 1 20 200
      (samplePage 7 57) (.arr ((List.range 7).map sampleBook)) (by decide) rfl rfl rfl
  exact ⟨r, hr, (harr _ rfl).2⟩

/-- C3, counterexample: the empty string is a cover id that is present, and
`getCoverUrl` returns `null` for it instead of the URL built from it. -/
theorem empty_cover_id_gives_null :
    getCoverUrl (.str "") (.str "M") = .null ∧
      getCoverUrl (.str "") (.str "M") ≠
        .str ("https://covers.openlibrary.org/b/id/" ++ "" ++ "-" ++ "M" ++ ".jpg") :=
  ⟨rfl, by simp [getCoverUrl, JsVal.truthy]⟩

/-- C3, amended: `getCoverUrl` returns `null` when the cover id is absent
(`undefined` or `null`) and for every other falsy id; for every truthy id
(in particular every non-empty string) and every size code it returns the
string "https://covers.openlibrary.org/b/id/" + id + "-" + size + ".jpg",
the size being 'M' when it is not given. -/
theorem getCoverUrl_spec (coverId size : JsVal) :
    getCoverUrl .undefined size = .null ∧ getCoverUrl .null size = .null ∧
    (coverId.truthy = false → getCoverUrl coverId size = .null) ∧
    (coverId.truthy = true → size ≠ .undefined →
      getCoverUrl coverId size =
        .str ("https://covers.openlibrary.org/b/id/" ++ coverId.toStr ++ "-" ++ size.toStr ++
          ".jpg")) ∧
    (coverId.truthy = true →
      getCoverUrl coverId .undefined =
        .str ("https://covers.openlibrary.org/b/id/" ++ coverId.toStr ++ "-" ++ "M" ++ ".jpg")) ∧
    (∀ id sz : String, id ≠ "" →
      getCoverUrl (.str id) (.str sz) =
        .str ("https://covers.openlibrary.org/b/id/" ++ id ++ "-" ++ sz ++ ".jpg")) ∧
    getCoverUrl (.str "12345") (.str "M") =
      .str "https://covers.openlibrary.org/b/id/12345-M.jpg" := by
  refine ⟨rfl, rfl, ?_, ?_, ?_, ?_, rfl⟩
  · intro h
    simp [getCoverUrl, h]
  · intro h hs
    cases size <;> simp_all [getCoverUrl]
  · intro h
    simp [getCoverUrl, h, JsVal.toStr]
  · intro id sz hid
    simp [getCoverUrl, JsVal.truthy, hid, JsVal.toStr]

/-- Witness of C3: the numeric cover id 12345 sent by the provider, in the
large size. -/
theorem getCoverUrl_spec_witness :
    getCoverUrl (.num 12345) (.str "L") =
      .str ("https://covers.openlibrary.org/b/id/" ++ (JsVal.num 12345).toStr ++ "-" ++
        (JsVal.str "L").toStr ++ ".jpg") :=
  (getCoverUrl_spec (.num 12345) (.str "L")).2.2.2.1 (by decide) (by simp)

/-- C4, counterexample: two failures without any of the three causes.  The
transport succeeds, the status is 200 and the body parses (to the JSON value
`null`), and `searchBooks` fails, because reading `data.docs` throws inside
the `try` block.  And for a query holding a lone surrogate `searchBooks`
fails on a network that would answer, without a request: `encodeURIComponent`
throws inside the `try` block. -/
theorem failure_without_listed_cause :
    (∃ url, (openLibraryAPI.searchBooks (sampleNet .null) duneUnits (.str "q") 1 20).requests =
        [url] ∧
      sampleNet .null url = .resolved ⟨200, some .null⟩) ∧
    Response.ok ⟨200, some .null⟩ = true ∧
    (openLibraryAPI.searchBooks (sampleNet .null) duneUnits (.str "q") 1 20).outcome =
      .error searchFailure ∧
    (openLibraryAPI.searchBooks (sampleNet (samplePage 20 57)) brokenUnits (.str "q")
      1 20).requests = [] ∧
    (openLibraryAPI.searchBooks (sampleNet (samplePage 20 57)) brokenUnits (.str "q")
      1 20).outcome = .error searchFailure :=
  ⟨⟨_, rfl, rfl⟩, rfl, rfl, rfl, rfl⟩

/-- C4, amended: `searchBooks` fails if and only if the query text cannot be
encoded (it holds a lone surrogate), the transport fails, the HTTP status is
outside 200-299, the body cannot be parsed, or the body parses to `null` (a
value with no properties to read; parsing never gives `undefined`).  In each
case the error thrown is the same `searchFailure`, its message is "Failed to
fetch books. Please try again.", and no second request is issued: a query
that cannot be encoded issues none, every other call issues one. -/
theorem searchBooks_fails_iff (net : String → FetchOutcome) (query : List Nat) (type : JsVal)
    (page limit : Int) :
    ((∃ e, (openLibraryAPI.searchBooks net query type page limit).outcome = .error e) ↔
      (decodeUtf16 query = none ∨
        ∃ url, openLibraryAPI.searchUrl query type page limit = .ok url ∧
          ((∃ reason, net url = .rejected reason) ∨
            ∃ response, net url = .resolved response ∧
              (response.ok = false ∨ response.body = none ∨ response.body = some .null ∨
                response.body = some .undefined)))) ∧
    (∀ e, (openLibraryAPI.searchBooks net query type page limit).outcome = .error e →
      e = searchFailure ∧ e.message = "Failed to fetch books. Please try again.") ∧
    (decodeUtf16 query = none →
      (openLibraryAPI.searchBooks net query type page limit).requests = []) ∧
    (decodeUtf16 query ≠ none →
      (openLibraryAPI.searchBooks net query type page limit).requests.length = 1) := by
  cases hq : decodeUtf16 query with
  | none =>
    rw [searchBooks_undecodable net query type page limit hq]
    refine ⟨?_, ?_, fun _ => rfl, fun h => absurd rfl h⟩
    · simp
    · intro e he
      cases he
      exact ⟨rfl, rfl⟩
  | some cs =>
    have hurl := searchUrl_decoded query cs type page limit hq
    obtain ⟨hreq, hout⟩ := searchBooks_built net query type page limit _ hurl
    refine ⟨?_, ?_, fun h => (by cases h), fun _ => (by rw [hreq]; rfl)⟩
    · rw [hout, hurl]
      have hiff := searchBooksTry_error_iff (net (BASE_URL ++ "/search.json?" ++
        searchParam (String.mk cs) type ++ "&limit=" ++ (JsNumber.ofInt limit).toText ++
        "&offset=" ++ (openLibraryAPI.searchOffset page limit).toText ++ "&fields=" ++
        searchFields)) (JsNumber.ofInt limit)
      constructor
      · intro hfail
        refine Or.inr ⟨_, rfl, hiff.mp ?_⟩
        obtain ⟨e, he⟩ := hfail
        split at he
        · cases he
        · rename_i cause hcause
          exact ⟨cause, hcause⟩
      · rintro (h | ⟨url, hu, hcause⟩)
        · cases h
        · cases hu
          obtain ⟨cause, hcause⟩ := hiff.mpr hcause
          rw [hcause]
          exact ⟨_, rfl⟩
    · intro e he
      rw [hout] at he
      split at he
      · cases he
      · cases he
        exact ⟨rfl, rfl⟩

/-- Witness of C4: a query holding a lone surrogate issues no request, the
query "dune" issues one, and on a network that is down the error thrown is
`searchFailure`. -/
theorem searchBooks_fails_iff_witness :
    decodeUtf16 brokenUnits = none ∧
    (openLibraryAPI.searchBooks downNet brokenUnits (.str "q") 1 20).requests = [] ∧
    decodeUtf16 duneUnits ≠ none ∧
    (openLibraryAPI.searchBooks downNet duneUnits (.str "q") 1 20).requests.length = 1 ∧
    searchFailure = searchFailure ∧
    searchFailure.message = "Failed to fetch books. Please try again." :=
  ⟨by decide,
    (searchBooks_fails_iff downNet brokenUnits (.str "q") 1 20).2.2.1 (by decide),
    by decide,
    (searchBooks_fails_iff downNet duneUnits (.str "q") 1 20).2.2.2 (by decide),
    (searchBooks_fails_iff downNet duneUnits (.str "q") 1 20).2.1 searchFailure rfl⟩

/-- C5: for every successful response, `books` is the `docs` list of the
response unchanged, or the empty list when `docs` is absent, and
`totalResults` is the `numFound` of the response, or 0 when `numFound` is
absent. -/
theorem searchBooks_books_verbatim (net : String → FetchOutcome) (query : String)
    (type : JsVal) (page limit : Int) (status : Nat) (data docs numFound : JsVal)
    (hnet : net (searchUrl query type page limit) = .resolved ⟨status, some data⟩)
    (hok : Response.ok ⟨status, some data⟩ = true)
    (hdocs : data.getProp "docs" = .ok docs)
    (hnum : data.getProp "numFound" = .ok numFound) :
    ∃ r, (searchBooks net query type page limit).outcome = .ok r ∧
      (∀ items, docs = .arr items → r.books = .arr items) ∧
      (docs = .undefined → r.books = .arr []) ∧
      (∀ n, numFound = .num n → r.totalResults = .num n) ∧
      (numFound = .undefined → r.totalResults = .num 0) := by
  obtain ⟨r, hr, hbooks, htotal, _⟩ :=
    searchBooks_resolved net query type page limit status data docs numFound hnet hok hdocs hnum
  refine ⟨r, hr, ?_, ?_, ?_, ?_⟩
  · rintro items rfl
    rw [hbooks]; rfl
  · rintro rfl
    rw [hbooks]; rfl
  · rintro n rfl
    rw [htotal, num_or_zero]
  · rintro rfl
    rw [htotal]; rfl

/-- Witness of C5: a page of seven records with `numFound` 57. -/
theorem searchBooks_books_verbatim_witness :
    ∃ r, (searchBooks (sampleNet (samplePage 7 57)) "dune" (.str "q") 1 20).outcome = .ok r ∧
      r.books = .arr ((List.range 7).map sampleBook) ∧ r.totalResults = .num 57 := by
  obtain ⟨r, hr, hbooks, _, htotal, _⟩ :=
    searchBooks_books_verbatim (sampleNet (samplePage 7 57)) "dune" (.str "q") 1 20 200
      (samplePage 7 57) (.arr ((List.range 7).map sampleBook)) (.num 57) rfl rfl rfl rfl
  exact ⟨r, hr, hbooks _ rfl, htotal _ rfl⟩

/-! ## Claims on the search session -/

/-- C6: when the first-page response of `handleSearch` is successful with
items `P` and total `N`, and nothing else is interleaved, the state has
`books = P`, `totalResults = N`, `hasMore = (|P| = 20)`, `currentPage = 1`,
`isLoading = false` and `error = null`. -/
theorem handleSearch_success (net : String → FetchOutcome) (s : AppState) (query : String)
    (searchType : JsVal) (status : Nat) (data : JsVal) (P : List JsVal) (N : Int)
    (hnet : net (searchUrl query searchType 1 defaultLimit) = .resolved ⟨status, some data⟩)
    (hok : Response.ok ⟨status, some data⟩ = true)
    (hdocs : data.getProp "docs" = .ok (.arr P))
    (hnum : data.getProp "numFound" = .ok (.num N)) :
    (handleSearch net s query searchType).1.books = .arr P ∧
    (handleSearch net s query searchType).1.totalResults = .num N ∧
    (handleSearch net s query searchType).1.hasMore = .bool (decide (P.length = 20)) ∧
    (handleSearch net s query searchType).1.currentPage = 1 ∧
    (handleSearch net s query searchType).1.isLoading = false ∧
    (handleSearch net s query searchType).1.error = .null := by
  obtain ⟨r, hr, hbooks, htotal, _, hmore⟩ :=
    searchBooks_resolved net query searchType 1 defaultLimit status data (.arr P) (.num N)
      hnet hok hdocs hnum
  have hlen : decide ((P.length : Int) = defaultLimit) = decide (P.length = 20) := by
    simp only [defaultLimit, decide_eq_decide]
    omega
  have hst : (handleSearch net s query searchType).1 =
      handleSearchSettled (handleSearchStart s query searchType) (.ok r) := by
    simp only [handleSearch, hr]
  rw [hst]
  refine ⟨hbooks, ?_, ?_, rfl, rfl, rfl⟩
  · show r.totalResults = _
    rw [htotal, num_or_zero]
  · show r.hasMore = _
    rw [hmore P rfl, hlen]

/-- Witness of C6: twenty items with `numFound = 57` give twenty books, a
total of 57, `hasMore = true` and page 1. -/
theorem handleSearch_success_witness :
    (handleSearch (sampleNet (samplePage 20 57)) AppState.initial "dune" .undefined).1.books
        = .arr ((List.range 20).map sampleBook) ∧
    ((List.range 20).map sampleBook).length = 20 ∧
    (handleSearch (sampleNet (samplePage 20 57)) AppState.initial "dune" .undefined).1.totalResults
        = .num 57 ∧
    (handleSearch (sampleNet (samplePage 20 57)) AppState.initial "dune" .undefined).1.hasMore
        = .bool true ∧
    (handleSearch (sampleNet (samplePage 20 57)) AppState.initial "dune" .undefined).1.currentPage
        = 1 := by
  have h := handleSearch_success (sampleNet (samplePage 20 57)) AppState.initial "dune" .undefined
    200 (samplePage 20 57) ((List.range 20).map sampleBook) 57 rfl rfl rfl rfl
  exact ⟨h.1, rfl, h.2.1, h.2.2.1, h.2.2.2.1⟩

/-- C7: whatever the prior state, when the first-page fetch of `handleSearch`
fails, the resulting state has `error` equal to the message of the failure,
which is the message of `searchFailure`, `books` empty, `totalResults = 0`,
`hasMore = false` and `isLoading = false`. -/
theorem handleSearch_failure (net : String → FetchOutcome) (s : AppState) (query : String)
    (searchType : JsVal) (err : JsError)
    (hfail : (searchBooks net query searchType 1 defaultLimit).outcome = .error err) :
    (handleSearch net s query searchType).1.error = .str err.message ∧
    err.message = "Failed to fetch books. Please try again." ∧
    (handleSearch net s query searchType).1.books = .arr [] ∧
    (handleSearch net s query searchType).1.totalResults = .num 0 ∧
    (handleSearch net s query searchType).1.hasMore = .bool false ∧
    (handleSearch net s query searchType).1.isLoading = false := by
  have hmsg : err.message = "Failed to fetch books. Please try again." := by
    rw [searchBooks_error_eq net query searchType 1 defaultLimit err hfail]
    rfl
  have hst : (handleSearch net s query searchType).1 =
      handleSearchSettled (handleSearchStart s query searchType) (.error err) := by
    simp only [handleSearch, hfail]
  rw [hst]
  exact ⟨rfl, hmsg, rfl, rfl, rfl, rfl⟩

/-- Witness of C7: a search on a network that is down, from a state that
holds results of an earlier search. -/
theorem handleSearch_failure_witness :
    (handleSearch downNet
        (handleSearch (sampleNet (samplePage 20 57)) AppState.initial "dune" .undefined).1
        "emma" .undefined).1.error = .str "Failed to fetch books. Please try again." ∧
    (handleSearch downNet
        (handleSearch (sampleNet (samplePage 20 57)) AppState.initial "dune" .undefined).1
        "emma" .undefined).1.books = .arr [] := by
  have h := handleSearch_failure downNet
    (handleSearch (sampleNet (samplePage 20 57)) AppState.initial "dune" .undefined).1
    "emma" .undefined searchFailure rfl
  exact ⟨h.1, h.2.2.1⟩

/-- C8: whatever the prior state, right after `handleSearch(query, type)` is
invoked and before its fetch settles, `books` is empty, `currentPage = 1`,
`isLoading = true`, `error = null`, `currentQuery = query` and
`currentSearchType = type`. -/
theorem handleSearchStart_resets (s : AppState) (query : String) (searchType : JsVal) :
    (handleSearchStart s query searchType).books = .arr [] ∧
    (handleSearchStart s query searchType).currentPage = 1 ∧
    (handleSearchStart s query searchType).isLoading = true ∧
    (handleSearchStart s query searchType).error = .null ∧
    (handleSearchStart s query searchType).currentQuery = query ∧
    (handleSearchStart s query searchType).currentSearchType = searchType :=
  ⟨rfl, rfl, rfl, rfl, rfl, rfl⟩

/-- C9: in every state in which `hasMore` is false (or falsy) or a next-page
fetch is in progress, `handleLoadMore` returns at its guard: no request is
issued and the state is unchanged. -/
theorem handleLoadMore_noop (net : String → FetchOutcome) (s : AppState)
    (h : s.hasMore.truthy = false ∨ s.isLoadingMore = true) :
    handleLoadMoreStart s = (s, none) ∧ handleLoadMore net s = (some s, []) := by
  have hstart : handleLoadMoreStart s = (s, none) := by
    unfold handleLoadMoreStart
    rcases h with h | h <;> simp [h]
  exact ⟨hstart, by simp only [handleLoadMore, hstart]⟩

/-- Witness of C9: the initial state has `hasMore = false`. -/
theorem handleLoadMore_noop_witness :
    handleLoadMoreStart AppState.initial = (AppState.initial, none) ∧
      handleLoadMore (sampleNet (samplePage 20 57)) AppState.initial =
        (some AppState.initial, []) :=
  handleLoadMore_noop (sampleNet (samplePage 20 57)) AppState.initial (Or.inl rfl)

/-- C10: in every state with `hasMore` truthy and no next-page fetch in
progress, `handleLoadMore` requests page `currentPage + 1` for the stored
`currentQuery` and `currentSearchType`, leaves `books` as it is while the
fetch is pending, and on success with items `R` sets `books` to the old books
followed by `R`, `hasMore` to the `hasMore` of the result, and `currentPage`
to `currentPage + 1`. -/
theorem handleLoadMore_success (net : String → FetchOutcome) (s : AppState)
    (B R : List JsVal) (r : SearchResult)
    (hmore : s.hasMore.truthy = true) (hidle : s.isLoadingMore = false)
    (hbooks : s.books = .arr B)
    (hrun : (searchBooks net s.currentQuery s.currentSearchType (s.currentPage + 1)
      defaultLimit).outcome = .ok r)
    (hR : r.books = .arr R) :
    handleLoadMoreStart s =
      ({ s with isLoadingMore := true },
        some ⟨s.currentPage + 1, s.currentQuery, s.currentSearchType⟩) ∧
    (handleLoadMoreStart s).1.books = s.books ∧
    ∃ s', handleLoadMore net s =
        (some s', [searchUrl s.currentQuery s.currentSearchType (s.currentPage + 1)
          defaultLimit]) ∧
      s'.books = .arr (B ++ R) ∧ s'.hasMore = r.hasMore ∧
      s'.currentPage = s.currentPage + 1 ∧ s'.isLoadingMore = false := by
  have hstart : handleLoadMoreStart s =
      ({ s with isLoadingMore := true },
        some ⟨s.currentPage + 1, s.currentQuery, s.currentSearchType⟩) := by
    unfold handleLoadMoreStart
    simp [hmore, hidle]
  refine ⟨hstart, by rw [hstart], ?_⟩
  have hrun2 : handleLoadMore net s =
      (handleLoadMoreSettled { s with isLoadingMore := true } (s.currentPage + 1) (.ok r),
        [searchUrl s.currentQuery s.currentSearchType (s.currentPage + 1) defaultLimit]) := by
    simp only [handleLoadMore, hstart, hrun, searchBooks_requests]
  have happ : appendBooks (.arr B) (.arr R) = some (.arr (B ++ R)) := rfl
  have hset : handleLoadMoreSettled { s with isLoadingMore := true } (s.currentPage + 1) (.ok r) =
      some { s with
        books := .arr (B ++ R)
        hasMore := r.hasMore
        currentPage := s.currentPage + 1
        isLoadingMore := false } := by
    simp only [handleLoadMoreSettled, hbooks, hR, happ]
  rw [hrun2, hset]
  exact ⟨_, rfl, rfl, rfl, rfl, rfl⟩

/-- Witness of C10: twenty books, then twenty more, give forty books and
page 2. -/
theorem handleLoadMore_success_witness :
    ∃ s', handleLoadMore (sampleNet (samplePage 20 57))
        (handleSearch (sampleNet (samplePage 20 57)) AppState.initial "dune" .undefined).1 =
        (some s', [searchUrl "dune" .undefined 2 20]) ∧
      s'.books = .arr ((List.range 20).map sampleBook ++ (List.range 20).map sampleBook) ∧
      ((List.range 20).map sampleBook ++ (List.range 20).map sampleBook).length = 40 ∧
      s'.hasMore = .bool true ∧ s'.currentPage = 2 := by
  obtain ⟨_, _, s', hs', hb, hm, hp, _⟩ :=
    handleLoadMore_success (sampleNet (samplePage 20 57))
      (handleSearch (sampleNet (samplePage 20 57)) AppState.initial "dune" .undefined).1
      ((List.range 20).map sampleBook) ((List.range 20).map sampleBook)
      ⟨.arr ((List.range 20).map sampleBook), .num 57, .bool true⟩ rfl rfl rfl rfl rfl
  exact ⟨s', hs', hb, rfl, hm, hp⟩

/-- Past its guard, the synchronous part of `handleLoadMore` raises
`isLoadingMore` and captures the next page with the stored query and type. -/
theorem handleLoadMoreStart_pass (s : AppState) (hmore : s.hasMore.truthy = true)
    (hidle : s.isLoadingMore = false) :
    handleLoadMoreStart s =
      ({ s with isLoadingMore := true },
        some ⟨s.currentPage + 1, s.currentQuery, s.currentSearchType⟩) := by
  unfold handleLoadMoreStart
  simp [hmore, hidle]

/-- Past its guard, a whole `handleLoadMore` is the continuation applied to
the outcome of the one request it makes. -/
theorem handleLoadMore_pass (net : String → FetchOutcome) (s : AppState)
    (hmore : s.hasMore.truthy = true) (hidle : s.isLoadingMore = false) :
    handleLoadMore net s =
      (handleLoadMoreSettled { s with isLoadingMore := true } (s.currentPage + 1)
          (searchBooks net s.currentQuery s.currentSearchType (s.currentPage + 1)
            defaultLimit).outcome,
        [searchUrl s.currentQuery s.currentSearchType (s.currentPage + 1) defaultLimit]) := by
  simp only [handleLoadMore, handleLoadMoreStart_pass s hmore hidle, searchBooks_requests]

/-- C11: when `handleLoadMore` issues its fetch and the fetch fails, `books`
is exactly the list held before the call, `error` is the message of the
failure, which is the message of `searchFailure`, and `isLoadingMore` is
cleared. -/
theorem handleLoadMore_failure (net : String → FetchOutcome) (s : AppState) (err : JsError)
    (hmore : s.hasMore.truthy = true) (hidle : s.isLoadingMore = false)
    (hfail : (searchBooks net s.currentQuery s.currentSearchType (s.currentPage + 1)
      defaultLimit).outcome = .error err) :
    ∃ s', handleLoadMore net s =
        (some s', [searchUrl s.currentQuery s.currentSearchType (s.currentPage + 1)
          defaultLimit]) ∧
      s'.books = s.books ∧ s'.error = .str err.message ∧
      err.message = "Failed to fetch books. Please try again." ∧
      s'.isLoadingMore = false := by
  have hmsg : err.message = "Failed to fetch books. Please try again." := by
    rw [searchBooks_error_eq net s.currentQuery s.currentSearchType (s.currentPage + 1)
      defaultLimit err hfail]
    rfl
  rw [handleLoadMore_pass net s hmore hidle, hfail]
  exact ⟨_, rfl, rfl, rfl, hmsg, rfl⟩

/-- Witness of C11: twenty books are held, and the network is down when the
next page is asked for. -/
theorem handleLoadMore_failure_witness :
    ∃ s', handleLoadMore downNet
        (handleSearch (sampleNet (samplePage 20 57)) AppState.initial "dune" .undefined).1 =
        (some s', [searchUrl "dune" .undefined 2 20]) ∧
      s'.books = .arr ((List.range 20).map sampleBook) ∧
      s'.error = .str "Failed to fetch books. Please try again." ∧
      s'.isLoadingMore = false := by
  obtain ⟨s', hs', hb, he, _, hl⟩ :=
    handleLoadMore_failure downNet
      (handleSearch (sampleNet (samplePage 20 57)) AppState.initial "dune" .undefined).1
      searchFailure rfl rfl rfl
  exact ⟨s', hs', hb, he, hl⟩

/-- C12, counterexample: "dune" is submitted, then "emma" before the first
fetch resolves; the response for "emma" (seven records) arrives first and the
response for "dune" (twenty records, total 57) last.  The final state holds
the books and the total of "dune", not those of the search submitted last. -/
theorem late_response_overwrites :
    (handleSearchSettled
        (handleSearchSettled
          (handleSearchStart (handleSearchStart AppState.initial "dune" .undefined)
            "emma" .undefined)
          (sampleOutcome 7 7 "emma" 1))
        (sampleOutcome 20 57 "dune" 1)).currentQuery = "emma" ∧
    (handleSearchSettled
        (handleSearchSettled
          (handleSearchStart (handleSearchStart AppState.initial "dune" .undefined)
            "emma" .undefined)
          (sampleOutcome 7 7 "emma" 1))
        (sampleOutcome 20 57 "dune" 1)).totalResults = .num 57 ∧
    (handleSearch (sampleNet (samplePage 7 7)) AppState.initial "emma" .undefined).1.totalResults
      = .num 7 ∧
    (handleSearchSettled
        (handleSearchSettled
          (handleSearchStart (handleSearchStart AppState.initial "dune" .undefined)
            "emma" .undefined)
          (sampleOutcome 7 7 "emma" 1))
        (sampleOutcome 20 57 "dune" 1)).totalResults ≠
      (handleSearch (sampleNet (samplePage 7 7)) AppState.initial "emma" .undefined).1.totalResults :=
  ⟨rfl, rfl, rfl, by
    show JsVal.num 57 ≠ JsVal.num 7
    simp⟩

/-- C12, amended: for two `handleSearch` calls S1 then S2, S2 issued before
the fetch of S1 resolves.  When the fetches resolve in the order of
submission, the final `books`, `totalResults` and `hasMore` are those that
the response to S2 alone produces, and so is `error` when S1 succeeded or S2
failed.  When the response to S1 arrives last it is applied like any other:
`books`, `totalResults` and `hasMore` are then those of the response to
S1. -/
theorem handleSearch_overlap (s : AppState) (q1 q2 : String) (t1 t2 : JsVal)
    (out1 out2 : Except JsError SearchResult) :
    (handleSearchSettled (handleSearchSettled
        (handleSearchStart (handleSearchStart s q1 t1) q2 t2) out1) out2).books =
      (handleSearchSettled (handleSearchStart s q2 t2) out2).books ∧
    (handleSearchSettled (handleSearchSettled
        (handleSearchStart (handleSearchStart s q1 t1) q2 t2) out1) out2).totalResults =
      (handleSearchSettled (handleSearchStart s q2 t2) out2).totalResults ∧
    (handleSearchSettled (handleSearchSettled
        (handleSearchStart (handleSearchStart s q1 t1) q2 t2) out1) out2).hasMore =
      (handleSearchSettled (handleSearchStart s q2 t2) out2).hasMore ∧
    (((∃ r, out1 = .ok r) ∨ (∃ e, out2 = .error e)) →
      (handleSearchSettled (handleSearchSettled
          (handleSearchStart (handleSearchStart s q1 t1) q2 t2) out1) out2).error =
        (handleSearchSettled (handleSearchStart s q2 t2) out2).error) ∧
    (handleSearchSettled (handleSearchSettled
        (handleSearchStart (handleSearchStart s q1 t1) q2 t2) out2) out1).books =
      (handleSearchSettled (handleSearchStart s q1 t1) out1).books ∧
    (handleSearchSettled (handleSearchSettled
        (handleSearchStart (handleSearchStart s q1 t1) q2 t2) out2) out1).totalResults =
      (handleSearchSettled (handleSearchStart s q1 t1) out1).totalResults ∧
    (handleSearchSettled (handleSearchSettled
        (handleSearchStart (handleSearchStart s q1 t1) q2 t2) out2) out1).hasMore =
      (handleSearchSettled (handleSearchStart s q1 t1) out1).hasMore := by
  refine ⟨?_, ?_, ?_, ?_, ?_, ?_, ?_⟩
  · cases out1 <;> cases out2 <;> rfl
  · cases out1 <;> cases out2 <;> rfl
  · cases out1 <;> cases out2 <;> rfl
  · rintro (⟨r, rfl⟩ | ⟨e, rfl⟩)
    · cases out2 <;> rfl
    · cases out1 <;> rfl
  · cases out1 <;> cases out2 <;> rfl
  · cases out1 <;> cases out2 <;> rfl
  · cases out1 <;> cases out2 <;> rfl

/-- Witness of C12: both searches succeed and resolve in the order of
submission; the error is the one the second search alone leaves, `null`. -/
theorem handleSearch_overlap_witness :
    (handleSearchSettled (handleSearchSettled
        (handleSearchStart (handleSearchStart AppState.initial "dune" .undefined)
          "emma" .undefined)
        (sampleOutcome 20 57 "dune" 1)) (sampleOutcome 7 7 "emma" 1)).error =
      (handleSearchSettled (handleSearchStart AppState.initial "emma" .undefined)
        (sampleOutcome 7 7 "emma" 1)).error :=
  (handleSearch_overlap AppState.initial "dune" "emma" .undefined .undefined
    (sampleOutcome 20 57 "dune" 1) (sampleOutcome 7 7 "emma" 1)).2.2.2.1
    (Or.inl ⟨⟨.arr ((List.range 20).map sampleBook), .num 57, .bool true⟩, rfl⟩)

/-! ## Claims on the detail view, the search form and `getBookDetails` -/

/-! ## Claims on the detail fetch of `BookDetailModal` -/

/-- Two values that `Object.is` holds the same are equal. -/
theorem sameValue_eq (a b : JsVal) (h : a.sameValue b = true) : a = b := by
  cases a <;> cases b <;> simp_all [JsVal.sameValue]

/-- The closure of the modal holds a book with the recorded key: this is so
after mounting, and every render keeps it. -/
theorem renderModal_memo (m : Modal) (book : JsVal)
    (h : m.memoBook.optProp "key" = m.memoKey) :
    Modal.initial.memoBook.optProp "key" = Modal.initial.memoKey ∧
    (renderModal m book).memoBook.optProp "key" = (renderModal m book).memoKey := by
  refine ⟨rfl, ?_⟩
  unfold renderModal
  split
  · exact h
  · rfl

/-- A book whose `key` is a string is an object, hence truthy, and reading its
`key` does not throw. -/
theorem keyed_book (book : JsVal) (k : String) (hkey : book.optProp "key" = .str k) :
    book.truthy = true ∧ book.getProp "key" = .ok (.str k) := by
  cases book <;> simp_all [JsVal.optProp, JsVal.getProp, JsVal.truthy]
  split at hkey <;> simp_all

/-- Selecting a book whose `key` is a string starts its fetch: the loading
flag is raised, the error cleared, and `getBookDetails` is called with that
key; the closure of the modal then holds a book with the recorded key. -/
theorem selectItem_keyed (ui : AppState × Modal) (book : JsVal) (k : String)
    (hmemo : ui.2.memoBook.optProp "key" = ui.2.memoKey)
    (hkey : book.optProp "key" = .str k) :
    (selectItem ui book).1.selectedBook = book ∧
    (selectItem ui book).2.cells = fetchBookDetailsStart ui.2.cells ∧
    selectRequest ui book = some (.str k) ∧
    (selectItem ui book).2.memoBook.optProp "key" = (selectItem ui book).2.memoKey := by
  obtain ⟨htruthy, _⟩ := keyed_book book k hkey
  have heffect : modalEffect (handleBookClick ui.1 book) (renderModal ui.2 book) =
      fetchBookDetailsCall (renderModal ui.2 book) := by
    simp [modalEffect, handleBookClick, htruthy]
  have hrender : (renderModal ui.2 book).memoBook.optProp "key" = .str k ∧
      (renderModal ui.2 book).memoKey = .str k ∧
      (renderModal ui.2 book).cells = ui.2.cells := by
    unfold renderModal
    by_cases hs : ui.2.memoKey.sameValue (book.optProp "key") = true
    · have := sameValue_eq _ _ hs
      rw [if_pos hs]
      exact ⟨by rw [hmemo, this, hkey], by rw [this, hkey], rfl⟩
    · rw [if_neg hs]
      exact ⟨hkey, hkey, rfl⟩
  obtain ⟨_, hread⟩ := keyed_book _ k hrender.1
  have hcall : fetchBookDetailsCall (renderModal ui.2 book) =
      ({ renderModal ui.2 book with cells := fetchBookDetailsStart (renderModal ui.2 book).cells },
        some (.str k)) := by
    simp only [fetchBookDetailsCall, hread]
  refine ⟨rfl, ?_, ?_, ?_⟩
  · simp only [selectItem, heffect, hcall, hrender.2.2]
  · simp only [selectRequest, heffect, hcall]
  · simp only [selectItem, heffect, hcall]
    rw [hrender.1, hrender.2.1]

/-- Closing the modal leaves the cells of the detail view as they are. -/
theorem clearSelection_cells (ui : AppState × Modal)
    (hmemo : ui.2.memoBook.optProp "key" = ui.2.memoKey) :
    (clearSelection ui).2.cells = ui.2.cells ∧
    (clearSelection ui).2.memoBook.optProp "key" = (clearSelection ui).2.memoKey := by
  have heffect : modalEffect (handleModalClose ui.1) (renderModal ui.2 .null) =
      (renderModal ui.2 .null, none) := by
    simp [modalEffect, handleModalClose]
  simp only [clearSelection, heffect, renderModal]
  by_cases hs : ui.2.memoKey.sameValue (JsVal.null.optProp "key") = true
  · rw [if_pos hs]
    exact ⟨rfl, hmemo⟩
  · rw [if_neg hs]
    exact ⟨rfl, rfl⟩

/-- Two fetches started one after the other from the cells `m` leave the
loading flag raised and the error cleared. -/
theorem fetchBookDetailsStart_twice (m : ModalState) :
    fetchBookDetailsStart (fetchBookDetailsStart m) =
      { m with isLoading := true, error := .null } := rfl

/-- C13, counterexample: book 1 is selected, the modal is closed and book 2
is selected before the detail fetch for book 1 has resolved; book 2 is then
shown with the spinner and no details.  When the fetch for book 1 resolves,
its details are stored and the loading flag is cleared: the modal of book 2
shows the details of book 1 while the fetch for book 2 is still pending. -/
theorem stale_detail_is_applied :
    twoSelections.1.selectedBook = sampleBook 2 ∧
    twoSelections.2.cells = { bookDetails := .null, isLoading := true, error := .null } ∧
    detailPane twoSelections.2.cells = .spinner ∧
    (detailSettled twoSelections (.ok (sampleDetails "About book 1."))).1.selectedBook =
      sampleBook 2 ∧
    (detailSettled twoSelections (.ok (sampleDetails "About book 1."))).2.cells =
      { bookDetails := sampleDetails "About book 1.", isLoading := false, error := .null } ∧
    detailPane (detailSettled twoSelections (.ok (sampleDetails "About book 1."))).2.cells =
      .details (sampleDetails "About book 1.") :=
  ⟨rfl, rfl, rfl, rfl, rfl, rfl⟩

/-- C13, amended: for every two books A and B that have a string `key`, if B
is selected while the detail fetch for A is pending, directly or after
closing the modal, then both fetches are under way (each asked with the key
of its book), B is the selection, and the loading flag is raised and the
error cleared.  The fetch that settles first, whichever book it was started
for, is applied to the detail state like any other completion: on success
its details are stored, on failure its message is stored as the error and the
details held before stay, and in both cases the loading flag is cleared, so
that the modal of B shows the details fetched for A when A settles first with
success.  The fetch that settles second is applied in the same way on top of
it: the details are those of the last success, the error is the message of
the last failure, and the error of a failed fetch stays when the other fetch
succeeds after it, the modal then showing the error. -/
theorem detail_completions_apply (ui mid : AppState × Modal) (A B : JsVal) (kA kB : String)
    (hmemo : ui.2.memoBook.optProp "key" = ui.2.memoKey)
    (hA : A.optProp "key" = .str kA) (hB : B.optProp "key" = .str kB)
    (hmid : mid = selectItem ui A ∨ mid = clearSelection (selectItem ui A)) :
    selectRequest ui A = some (.str kA) ∧
    selectRequest mid B = some (.str kB) ∧
    (selectItem mid B).1.selectedBook = B ∧
    (selectItem mid B).2.cells = { ui.2.cells with isLoading := true, error := .null } ∧
    (∀ d, (detailSettled (selectItem mid B) (.ok d)).1.selectedBook = B ∧
      (detailSettled (selectItem mid B) (.ok d)).2.cells =
        { bookDetails := d, isLoading := false, error := .null } ∧
      detailPane (detailSettled (selectItem mid B) (.ok d)).2.cells = .details d) ∧
    (∀ e, (detailSettled (selectItem mid B) (.error e)).1.selectedBook = B ∧
      (detailSettled (selectItem mid B) (.error e)).2.cells =
        { bookDetails := ui.2.cells.bookDetails, isLoading := false,
          error := .str e.message }) ∧
    (∀ d1 d2, (detailSettled (detailSettled (selectItem mid B) (.ok d1)) (.ok d2)).2.cells =
      { bookDetails := d2, isLoading := false, error := .null }) ∧
    (∀ d1 e2, (detailSettled (detailSettled (selectItem mid B) (.ok d1)) (.error e2)).2.cells =
      { bookDetails := d1, isLoading := false, error := .str e2.message }) ∧
    (∀ e1 d2, (detailSettled (detailSettled (selectItem mid B) (.error e1)) (.ok d2)).2.cells =
        { bookDetails := d2, isLoading := false, error := .str e1.message } ∧
      (e1.message ≠ "" →
        detailPane (detailSettled (detailSettled (selectItem mid B) (.error e1)) (.ok d2)).2.cells =
          .errorPane (.str e1.message))) ∧
    (∀ e1 e2,
      (detailSettled (detailSettled (selectItem mid B) (.error e1)) (.error e2)).2.cells =
        { bookDetails := ui.2.cells.bookDetails, isLoading := false,
          error := .str e2.message }) := by
  obtain ⟨_, hcellsA, hreqA, hmemoA⟩ := selectItem_keyed ui A kA hmemo hA
  have hmidfacts : mid.2.cells = fetchBookDetailsStart ui.2.cells ∧
      mid.2.memoBook.optProp "key" = mid.2.memoKey := by
    rcases hmid with h | h
    · rw [h]
      exact ⟨hcellsA, hmemoA⟩
    · obtain ⟨hc, hm⟩ := clearSelection_cells (selectItem ui A) hmemoA
      rw [h]
      exact ⟨by rw [hc, hcellsA], hm⟩
  obtain ⟨hsel, hcellsB, hreqB, _⟩ := selectItem_keyed mid B kB hmidfacts.2 hB
  have hcells : (selectItem mid B).2.cells =
      { ui.2.cells with isLoading := true, error := .null } := by
    rw [hcellsB, hmidfacts.1]
    rfl
  refine ⟨hreqA, hreqB, hsel, hcells, ?_, ?_, ?_, ?_, ?_, ?_⟩
  · intro d
    have h : (detailSettled (selectItem mid B) (.ok d)).2.cells =
        { bookDetails := d, isLoading := false, error := .null } := by
      simp only [detailSettled, hcells, fetchBookDetailsSettled]
    exact ⟨hsel, h, by rw [h]; rfl⟩
  · intro e
    exact ⟨hsel, by simp only [detailSettled, hcells, fetchBookDetailsSettled]⟩
  · intro d1 d2
    simp only [detailSettled, hcells, fetchBookDetailsSettled]
  · intro d1 e2
    simp only [detailSettled, hcells, fetchBookDetailsSettled]
  · intro e1 d2
    have h : (detailSettled (detailSettled (selectItem mid B) (.error e1)) (.ok d2)).2.cells =
        { bookDetails := d2, isLoading := false, error := .str e1.message } := by
      simp only [detailSettled, hcells, fetchBookDetailsSettled]
    refine ⟨h, fun hne => ?_⟩
    rw [h]
    simp [detailPane, JsVal.truthy, hne]
  · intro e1 e2
    simp only [detailSettled, hcells, fetchBookDetailsSettled]

/-- Witness of C13: book 1 is selected on the page as mounted, the modal is
closed and book 2 is selected; the fetch for book 1 fails, then the fetch for
book 2 succeeds, and the modal shows the error. -/
theorem detail_completions_apply_witness :
    Modal.initial.memoBook.optProp "key" = Modal.initial.memoKey ∧
    (sampleBook 1).optProp "key" = .str "/works/OL1W" ∧
    (sampleBook 2).optProp "key" = .str "/works/OL2W" ∧
    selectRequest mountedPage (sampleBook 1) = some (.str "/works/OL1W") ∧
    selectRequest (clearSelection (selectItem mountedPage (sampleBook 1))) (sampleBook 2) =
      some (.str "/works/OL2W") ∧
    twoSelections.2.cells = { bookDetails := .null, isLoading := true, error := .null } ∧
    detailPane (detailSettled (detailSettled twoSelections (.error detailsFailure))
        (.ok (sampleDetails "About book 2."))).2.cells =
      .errorPane (.str "Failed to fetch book details. Please try again.") :=
  ⟨rfl, rfl, rfl,
    (detail_completions_apply mountedPage (clearSelection (selectItem mountedPage (sampleBook 1)))
      (sampleBook 1) (sampleBook 2) "/works/OL1W" "/works/OL2W" rfl rfl rfl (Or.inr rfl)).1,
    (detail_completions_apply mountedPage (clearSelection (selectItem mountedPage (sampleBook 1)))
      (sampleBook 1) (sampleBook 2) "/works/OL1W" "/works/OL2W" rfl rfl rfl (Or.inr rfl)).2.1,
    (detail_completions_apply mountedPage (clearSelection (selectItem mountedPage (sampleBook 1)))
      (sampleBook 1) (sampleBook 2) "/works/OL1W" "/works/OL2W" rfl rfl rfl
      (Or.inr rfl)).2.2.2.1,
    ((detail_completions_apply mountedPage
      (clearSelection (selectItem mountedPage (sampleBook 1)))
      (sampleBook 1) (sampleBook 2) "/works/OL1W" "/works/OL2W" rfl rfl rfl
      (Or.inr rfl)).2.2.2.2.2.2.2.2.1 detailsFailure (sampleDetails "About book 2.")).2
      (by decide)⟩

/-- C14: submitting the search form with a text that is empty after trimming
calls nothing, issues no request and leaves the state as it is; with a text
that is not empty after trimming it calls `handleSearch` once with the text
as typed, which issues one request. -/
theorem submitForm_spec (net : String → FetchOutcome) (s : AppState) (query : String) :
    (jsTrim query = "" →
      handleSubmit query = none ∧ submitForm net s query = (s, [])) ∧
    (jsTrim query ≠ "" →
      handleSubmit query = some query ∧
      submitForm net s query = handleSearch net s query .undefined ∧
      (submitForm net s query).2 = [searchUrl query .undefined 1 defaultLimit]) := by
  constructor
  · intro h
    have hs : handleSubmit query = none := by simp [handleSubmit, JsVal.truthy, h]
    exact ⟨hs, by simp only [submitForm, hs]⟩
  · intro h
    have hs : handleSubmit query = some query := by simp [handleSubmit, JsVal.truthy, h]
    have hf : submitForm net s query = handleSearch net s query .undefined := by
      simp only [submitForm, hs]
    refine ⟨hs, hf, ?_⟩
    rw [hf]
    simp only [handleSearch, searchBooks_requests]

/-- Witness of C14: a text of blanks starts nothing, and " dune " starts one
search. -/
theorem submitForm_spec_witness :
    (handleSubmit "   " = none ∧
      submitForm (sampleNet (samplePage 7 7)) AppState.initial "   " = (AppState.initial, [])) ∧
    (handleSubmit " dune " = some " dune " ∧
      submitForm (sampleNet (samplePage 7 7)) AppState.initial " dune " =
        handleSearch (sampleNet (samplePage 7 7)) AppState.initial " dune " .undefined ∧
      (submitForm (sampleNet (samplePage 7 7)) AppState.initial " dune ").2 =
        [searchUrl " dune " .undefined 1 defaultLimit]) :=
  ⟨(submitForm_spec (sampleNet (samplePage 7 7)) AppState.initial "   ").1 (by decide),
    (submitForm_spec (sampleNet (samplePage 7 7)) AppState.initial " dune ").2 (by decide)⟩

/-- The promise returned by `getBookDetails` settles as its `try` block does,
with every error replaced by `detailsFailure`. -/
theorem getBookDetails_outcome (net : String → FetchOutcome) (key : JsVal) :
    (getBookDetails net key).outcome =
      match getBookDetailsTry (net (detailsUrl key)) with
      | .ok details => .ok details
      | .error _ => .error detailsFailure := by
  unfold getBookDetails
  dsimp only
  split <;> rfl

/-- The run of `getBookDetails` requests the details URL once, however the
request settles. -/
theorem getBookDetails_requests (net : String → FetchOutcome) (key : JsVal) :
    (getBookDetails net key).requests = [detailsUrl key] := by
  unfold getBookDetails
  dsimp only
  split <;> rfl

/-- C15: for every key, `getBookDetails` issues one request; on a response
with a success status and a body that parses it returns the parsed body
unchanged; it fails exactly on a transport failure, a status outside 200-299
or a body that does not parse, and then with the message "Failed to fetch
book details. Please try again."; nothing is cached, two calls with the same
key issue two requests. -/
theorem getBookDetails_spec (net : String → FetchOutcome) (key : JsVal) :
    (getBookDetails net key).requests = [detailsUrl key] ∧
    (∀ status data, net (detailsUrl key) = .resolved ⟨status, some data⟩ →
      Response.ok ⟨status, some data⟩ = true →
      (getBookDetails net key).outcome = .ok data) ∧
    ((∃ e, (getBookDetails net key).outcome = .error e) ↔
      ((∃ reason, net (detailsUrl key) = .rejected reason) ∨
        ∃ response, net (detailsUrl key) = .resolved response ∧
          (response.ok = false ∨ response.body = none))) ∧
    (∀ e, (getBookDetails net key).outcome = .error e →
      e = detailsFailure ∧ e.message = "Failed to fetch book details. Please try again.") ∧
    (getBookDetails net key).requests ++ (getBookDetails net key).requests =
      [detailsUrl key, detailsUrl key] := by
  refine ⟨getBookDetails_requests net key, ?_, ?_, ?_, ?_⟩
  · intro status data hnet hok
    rw [getBookDetails_outcome, hnet]
    simp [getBookDetailsTry, hok]
  · rw [getBookDetails_outcome]
    cases hnet : net (detailsUrl key) with
    | rejected reason => simp [getBookDetailsTry]
    | resolved response =>
      obtain ⟨status, body⟩ := response
      by_cases hok : Response.ok ⟨status, body⟩ = true
      · cases body <;> simp [getBookDetailsTry, hok]
      · have hf : Response.ok ⟨status, body⟩ = false := by simpa using hok
        simp [getBookDetailsTry, hf]
  · intro e he
    rw [getBookDetails_outcome] at he
    split at he
    · cases he
    · cases he
      exact ⟨rfl, rfl⟩
  · rw [getBookDetails_requests]
    rfl

/-- Witness of C15: the details of a work are returned as the provider sent
them. -/
theorem getBookDetails_spec_witness :
    (getBookDetails (sampleNet (sampleDetails "A desert planet.")) (.str "/works/OL1W")).outcome
      = .ok (sampleDetails "A desert planet.") :=
  (getBookDetails_spec (sampleNet (sampleDetails "A desert planet.")) (.str "/works/OL1W")).2.1
    200 (sampleDetails "A desert planet.") rfl rfl

/-! ## Claims on the auto-scroll effect -/

/-- A whole `handleSearch` on a page without pending timeout, followed by the
firing of the timeout its completion may have set: one scroll when the
settled state shows books or an error, none otherwise. -/
theorem search_run_eq (s : Session) (q : String) (t : JsVal)
    (out : Except JsError SearchResult) (hquiet : s.timers = 0) :
    runEvents s [.search q t, .searchSettled out, .timer] =
      some (if (booksLength (handleSearchSettled (handleSearchStart s.app q t) out)).gtZero ||
              (handleSearchSettled (handleSearchStart s.app q t) out).error.truthy
        then { app := { handleSearchSettled (handleSearchStart s.app q t) out with
                        shouldAutoScroll := false },
               timers := 0, scrolls := s.scrolls + 1 }
        else { app := handleSearchSettled (handleSearchStart s.app q t) out,
               timers := 0, scrolls := s.scrolls }) := by
  obtain ⟨app, timers, scrolls⟩ := s
  simp only at hquiet
  subst hquiet
  have hload : (handleSearchSettled (handleSearchStart app q t) out).isLoading = false := by
    cases out <;> rfl
  have hflag : (handleSearchSettled (handleSearchStart app q t) out).shouldAutoScroll = true := by
    cases out <;> rfl
  have hstart : (handleSearchStart app q t).isLoading = true := rfl
  by_cases hc : ((booksLength (handleSearchSettled (handleSearchStart app q t) out)).gtZero ||
              (handleSearchSettled (handleSearchStart app q t) out).error.truthy) = true
  · rw [if_pos hc]
    simp only [runEvents, step, commit, sameScrollDeps, autoScrollCondition, hload, hflag,
      hstart, hc]
    simp
  · rw [if_neg hc]
    simp only [runEvents, step, commit, sameScrollDeps, autoScrollCondition, hload, hflag,
      hstart, hc]
    simp

/-- C16, failing run: after `searchDuringLoadMore` no timeout is pending and
the page has scrolled once, for the search of "dune"; the search of "zzzz"
found nothing and left `shouldAutoScroll` set.  The completion of the pending
`handleLoadMore` then sets a timeout, and the page scrolls a second time, as
a consequence of a load-more completion. -/
theorem loadMore_completion_scrolls :
    (runEvents Session.initial searchDuringLoadMore).map
        (fun s => (s.timers, s.scrolls, s.app.shouldAutoScroll)) = some (0, 1, true) ∧
    (runEvents Session.initial
        (searchDuringLoadMore ++ [.loadMoreSettled 2 (sampleOutcome 20 57 "dune" 2)])).map
        (fun s => (s.timers, s.scrolls, s.app.currentQuery)) = some (1, 1, "zzzz") ∧
    (runEvents Session.initial
        (searchDuringLoadMore ++
          [.loadMoreSettled 2 (sampleOutcome 20 57 "dune" 2), .timer])).map
        (fun s => (s.timers, s.scrolls)) = some (0, 2) :=
  ⟨rfl, rfl, rfl⟩

/-- C17, counterexample: a search that completes successfully with zero items
does not scroll: no timeout is set and the count of scrolls stays 0. -/
theorem empty_result_does_not_scroll :
    (runEvents Session.initial
        [.search "zzzz" .undefined, .searchSettled (sampleOutcome 0 0 "zzzz" 1)]).map
        (fun s => (s.timers, s.scrolls)) = some (0, 0) ∧
    (runEvents Session.initial
        [.search "zzzz" .undefined, .searchSettled (sampleOutcome 0 0 "zzzz" 1), .timer]).map
        (fun s => (s.timers, s.scrolls)) = some (0, 0) :=
  ⟨rfl, rfl⟩

/-- C17, amended: for every `handleSearch` call whose fetch completes, on a
page without pending timeout and with nothing interleaved, the auto-scroll
fires exactly once when the fetch fails or succeeds with at least one item,
and does not fire when it succeeds with zero items. -/
theorem search_completion_scroll (net : String → FetchOutcome) (s : Session) (q : String)
    (t : JsVal) (hquiet : s.timers = 0) :
    ∃ s', runEvents s
        [.search q t, .searchSettled (searchBooks net q t 1 defaultLimit).outcome, .timer]
        = some s' ∧
      s'.timers = 0 ∧
      ((∃ e, (searchBooks net q t 1 defaultLimit).outcome = .error e) →
        s'.scrolls = s.scrolls + 1) ∧
      (∀ r P, (searchBooks net q t 1 defaultLimit).outcome = .ok r → r.books = .arr P →
        P ≠ [] → s'.scrolls = s.scrolls + 1) ∧
      (∀ r, (searchBooks net q t 1 defaultLimit).outcome = .ok r → r.books = .arr [] →
        s'.scrolls = s.scrolls) := by
  refine ⟨_, search_run_eq s q t _ hquiet, ?_, ?_, ?_, ?_⟩
  · split <;> rfl
  · rintro ⟨e, he⟩
    have hmsg := searchBooks_error_eq net q t 1 defaultLimit e he
    subst hmsg
    rw [he]
    rfl
  · intro r P hr hP hne
    have hpos : (0 : Int) < P.length := by
      have := List.length_pos.mpr hne
      omega
    rw [hr]
    simp [handleSearchSettled, booksLength, JsVal.optProp, JsVal.getProp, hP, JsVal.gtZero, hpos]
  · intro r hr hP
    rw [hr]
    simp [handleSearchSettled, handleSearchStart, booksLength, JsVal.optProp, JsVal.getProp, hP,
      JsVal.gtZero, JsVal.truthy]

/-- Witness of C17: a search that finds twenty books scrolls once. -/
theorem search_completion_scroll_witness :
    ∃ s', runEvents Session.initial
        [.search "dune" .undefined,
          .searchSettled (searchBooks (sampleNet (samplePage 20 57)) "dune" .undefined 1
            defaultLimit).outcome, .timer] = some s' ∧
      s'.timers = 0 ∧ s'.scrolls = 1 := by
  obtain ⟨s', hs', ht, _, hpos, _⟩ :=
    search_completion_scroll (sampleNet (samplePage 20 57)) Session.initial "dune" .undefined rfl
  exact ⟨s', hs', ht,
    hpos ⟨.arr ((List.range 20).map sampleBook), .num 57, .bool true⟩
      ((List.range 20).map sampleBook) rfl rfl (by simp)⟩

/-! ## Claims on closing the modal, the load-more guard and the description -/

/-- Closing the modal starts no fetch, and leaves the closure of the modal
with the recorded dependency `undefined`: the closure it had when that was
the dependency already, else one holding `null`. -/
theorem clearSelection_closure (ui : AppState × Modal) :
    (modalEffect (handleModalClose ui.1) (renderModal ui.2 .null)).2 = none ∧
    (clearSelection ui).2.memoKey = .undefined ∧
    (ui.2.memoKey ≠ .undefined → (clearSelection ui).2.memoBook = .null) ∧
    (ui.2.memoKey = .undefined → (clearSelection ui).2.memoBook = ui.2.memoBook) := by
  have heffect : modalEffect (handleModalClose ui.1) (renderModal ui.2 .null) =
      (renderModal ui.2 .null, none) := by
    simp [modalEffect, handleModalClose]
  have hnull : JsVal.null.optProp "key" = .undefined := rfl
  refine ⟨by rw [heffect], ?_⟩
  simp only [clearSelection, heffect, renderModal, hnull]
  by_cases hs : ui.2.memoKey.sameValue .undefined = true
  · have hk := sameValue_eq _ _ hs
    rw [if_pos hs]
    exact ⟨hk, fun h => absurd hk h, fun _ => rfl⟩
  · rw [if_neg hs]
    refine ⟨rfl, fun _ => rfl, fun h => ?_⟩
    rw [h] at hs
    exact absurd rfl hs

/-- C18, counterexample: book 1 is selected and its details arrive, then the
modal is closed: the selection is cleared, but the details of book 1 are
still held by the detail view, and the selection of book 2 starts from them. -/
theorem close_keeps_detail_state :
    (clearSelection detailsShown).1.selectedBook = .null ∧
    (clearSelection detailsShown).2.cells =
      { bookDetails := sampleDetails "About book 1.", isLoading := false, error := .null } ∧
    (selectItem (clearSelection detailsShown) (sampleBook 2)).1.selectedBook = sampleBook 2 ∧
    (selectItem (clearSelection detailsShown) (sampleBook 2)).2.cells =
      { bookDetails := sampleDetails "About book 1.", isLoading := true, error := .null } :=
  ⟨rfl, rfl, rfl, rfl⟩

/-- C18, amended: after `handleModalClose`, for every prior state, the
selection is discarded (`selectedBook` is `null` and the modal is closed) and
no fetch is started, while the detail state held by the detail view
(`bookDetails`, its loading flag and its error) is kept as it is.  A later
selection of a book that has a string `key` starts its fetch from that state:
`getBookDetails` is asked with the key, the loading flag is raised and the
error cleared, and `bookDetails` stays that of the previously selected book
until the new fetch succeeds; when the new fetch fails it stays for good,
beside the error.  A later selection of a book without a `key`, made while
the closure of the modal holds `null`, asks nothing: reading `book.key`
throws, the loading flag is left cleared, `bookDetails` stays, and the
message of the `TypeError` is shown as the error. -/
theorem clearSelection_keeps_cells (ui : AppState × Modal) (book : JsVal) (k : String)
    (hmemo : ui.2.memoBook.optProp "key" = ui.2.memoKey)
    (hkey : book.optProp "key" = .str k) :
    (clearSelection ui).1.selectedBook = .null ∧
    (clearSelection ui).1.isModalOpen = false ∧
    (modalEffect (handleModalClose ui.1) (renderModal ui.2 .null)).2 = none ∧
    (clearSelection ui).2.cells = ui.2.cells ∧
    (selectItem (clearSelection ui) book).1.selectedBook = book ∧
    (selectItem (clearSelection ui) book).1.isModalOpen = true ∧
    selectRequest (clearSelection ui) book = some (.str k) ∧
    (selectItem (clearSelection ui) book).2.cells =
      { ui.2.cells with isLoading := true, error := .null } ∧
    (∀ d, (detailSettled (selectItem (clearSelection ui) book) (.ok d)).2.cells =
      { bookDetails := d, isLoading := false, error := .null }) ∧
    (∀ e, (detailSettled (selectItem (clearSelection ui) book) (.error e)).2.cells =
      { bookDetails := ui.2.cells.bookDetails, isLoading := false,
        error := .str e.message }) ∧
    (∀ other : JsVal, other.truthy = true → other.optProp "key" = .undefined →
      (ui.2.memoKey ≠ .undefined ∨ ui.2.memoBook = .null) →
      selectRequest (clearSelection ui) other = none ∧
      (selectItem (clearSelection ui) other).1.selectedBook = other ∧
      ∃ message : String, message ≠ "" ∧
        (selectItem (clearSelection ui) other).2.cells =
          { bookDetails := ui.2.cells.bookDetails, isLoading := false,
            error := .str message } ∧
        detailPane (selectItem (clearSelection ui) other).2.cells =
          .errorPane (.str message)) := by
  obtain ⟨hcells, hmemo2⟩ := clearSelection_cells ui hmemo
  obtain ⟨hnone, hk, hnull, hsame⟩ := clearSelection_closure ui
  obtain ⟨hsel, hstart, hreq, _⟩ := selectItem_keyed (clearSelection ui) book k hmemo2 hkey
  have hpending : (selectItem (clearSelection ui) book).2.cells =
      { ui.2.cells with isLoading := true, error := .null } := by
    rw [hstart, hcells]
    rfl
  refine ⟨rfl, rfl, hnone, hcells, hsel, rfl, hreq, hpending, ?_, ?_, ?_⟩
  · intro d
    simp only [detailSettled, hpending, fetchBookDetailsSettled]
  · intro e
    simp only [detailSettled, hpending, fetchBookDetailsSettled]
  · intro other htruthy hother hclosure
    have hbook : (clearSelection ui).2.memoBook = .null := by
      rcases hclosure with h | h
      · exact hnull h
      · by_cases hu : ui.2.memoKey = .undefined
        · rw [hsame hu, h]
        · exact hnull hu
    have hrender : renderModal (clearSelection ui).2 other = (clearSelection ui).2 := by
      unfold renderModal
      rw [hk, hother]
      rfl
    have heffect : modalEffect (handleBookClick (clearSelection ui).1 other)
        (renderModal (clearSelection ui).2 other) =
        fetchBookDetailsCall (clearSelection ui).2 := by
      rw [hrender]
      simp [modalEffect, handleBookClick, htruthy]
    have hcall : fetchBookDetailsCall (clearSelection ui).2 =
        ({ (clearSelection ui).2 with
            cells := fetchBookDetailsSettled (fetchBookDetailsStart (clearSelection ui).2.cells)
              (.error ⟨"TypeError", "Cannot read properties of null"⟩) }, none) := by
      simp only [fetchBookDetailsCall, hbook, JsVal.getProp]
    have hfinal : (selectItem (clearSelection ui) other).2.cells =
        { bookDetails := ui.2.cells.bookDetails, isLoading := false,
          error := .str "Cannot read properties of null" } := by
      simp only [selectItem, heffect, hcall, hcells, fetchBookDetailsSettled,
        fetchBookDetailsStart]
    refine ⟨by simp only [selectRequest, heffect, hcall], rfl,
      "Cannot read properties of null", by decide, hfinal, ?_⟩
    rw [hfinal]
    rfl

/-- Witness of C18: the modal is closed on the details of book 1 and book 2
is selected; and the modal is closed on the details of book 1 and a record
without a `key` is selected. -/
theorem clearSelection_keeps_cells_witness :
    detailsShown.2.memoBook.optProp "key" = detailsShown.2.memoKey ∧
    (sampleBook 2).optProp "key" = .str "/works/OL2W" ∧
    (clearSelection detailsShown).2.cells = detailsShown.2.cells ∧
    selectRequest (clearSelection detailsShown) (sampleBook 2) = some (.str "/works/OL2W") ∧
    (selectItem (clearSelection detailsShown) (sampleBook 2)).2.cells =
      { detailsShown.2.cells with isLoading := true, error := .null } ∧
    selectRequest (clearSelection detailsShown) keylessBook = none :=
  ⟨rfl, rfl,
    (clearSelection_keeps_cells detailsShown (sampleBook 2) "/works/OL2W" rfl rfl).2.2.2.1,
    (clearSelection_keeps_cells detailsShown (sampleBook 2) "/works/OL2W" rfl
      rfl).2.2.2.2.2.2.1,
    (clearSelection_keeps_cells detailsShown (sampleBook 2) "/works/OL2W" rfl
      rfl).2.2.2.2.2.2.2.1,
    ((clearSelection_keeps_cells detailsShown (sampleBook 2) "/works/OL2W" rfl
      rfl).2.2.2.2.2.2.2.2.2.2 keylessBook rfl rfl (Or.inl (by simp [detailsShown,
        detailSettled, selectItem, modalEffect, handleBookClick, mountedPage, renderModal,
        Modal.initial, JsVal.sameValue, JsVal.optProp, JsVal.getProp, sampleBook,
        fetchBookDetailsCall, JsVal.truthy, AppState.initial, List.lookup]))).1⟩

/-- C19, counterexample: twenty books of "dune" are held with `hasMore` true,
and "emma" has just been submitted, so a first-page search is in progress.
`handleLoadMore` is not rejected: it requests page 2 of "emma". -/
theorem loadMore_during_first_page :
    (handleSearchStart
        (handleSearch (sampleNet (samplePage 20 57)) AppState.initial "dune" .undefined).1
        "emma" .undefined).isLoading = true ∧
    (handleSearchStart
        (handleSearch (sampleNet (samplePage 20 57)) AppState.initial "dune" .undefined).1
        "emma" .undefined).hasMore = .bool true ∧
    (handleLoadMore (sampleNet (samplePage 20 57))
        (handleSearchStart
          (handleSearch (sampleNet (samplePage 20 57)) AppState.initial "dune" .undefined).1
          "emma" .undefined)).2 = [searchUrl "emma" .undefined 2 20] ∧
    (handleLoadMore (sampleNet (samplePage 20 57))
        (handleSearchStart
          (handleSearch (sampleNet (samplePage 20 57)) AppState.initial "dune" .undefined).1
          "emma" .undefined)).2 ≠ [] :=
  ⟨rfl, rfl, rfl, by
    show [searchUrl "emma" .undefined 2 20] ≠ []
    simp⟩

/-- C19, amended: while a first-page search is in progress, `handleLoadMore`
is a no-op exactly as otherwise, when `hasMore` is falsy or a next-page fetch
is in progress; with `hasMore` truthy and no next-page fetch in progress its
guard lets it through: it raises `isLoadingMore` and requests page
`currentPage + 1` of the current query, the first-page search still being in
progress. -/
theorem handleLoadMore_while_loading (net : String → FetchOutcome) (s : AppState)
    (hloading : s.isLoading = true) :
    ((s.hasMore.truthy = false ∨ s.isLoadingMore = true) →
      handleLoadMore net s = (some s, [])) ∧
    (s.hasMore.truthy = true → s.isLoadingMore = false →
      handleLoadMoreStart s =
        ({ s with isLoadingMore := true },
          some ⟨s.currentPage + 1, s.currentQuery, s.currentSearchType⟩) ∧
      (handleLoadMoreStart s).1.isLoading = true ∧
      (handleLoadMore net s).2 =
        [searchUrl s.currentQuery s.currentSearchType (s.currentPage + 1) defaultLimit]) := by
  constructor
  · intro h
    have hstart : handleLoadMoreStart s = (s, none) := by
      unfold handleLoadMoreStart
      rcases h with h | h <;> simp [h]
    simp only [handleLoadMore, hstart]
  · intro hmore hidle
    refine ⟨handleLoadMoreStart_pass s hmore hidle, ?_, ?_⟩
    · rw [handleLoadMoreStart_pass s hmore hidle]
      exact hloading
    · rw [handleLoadMore_pass net s hmore hidle]

/-- Witness of C19: the state of the counterexample, a first-page search in
progress with `hasMore` still true. -/
theorem handleLoadMore_while_loading_witness :
    (handleLoadMore downNet
        (handleSearchStart
          (handleSearch (sampleNet (samplePage 20 57)) AppState.initial "dune" .undefined).1
          "emma" .undefined)).2 = [searchUrl "emma" .undefined (1 + 1) defaultLimit] :=
  ((handleLoadMore_while_loading downNet
      (handleSearchStart
        (handleSearch (sampleNet (samplePage 20 57)) AppState.initial "dune" .undefined).1
        "emma" .undefined) rfl).2 rfl rfl).2.2

/-- C20, failing input: a description object whose `value` is the empty
string is a description carrying a string `value`; the `||` of the
expression falls through to the description itself, and what the paragraph
is given as its child is the object, not the string `value` and no string at
all. -/
theorem empty_value_gives_object :
    descriptionText (.obj [("description", .obj [("type", .str "/type/text"),
        ("value", .str "")])]) =
      some (.obj [("type", .str "/type/text"), ("value", .str "")]) ∧
    descriptionText (.obj [("description", .obj [("type", .str "/type/text"),
        ("value", .str "")])]) ≠ some (.str "") :=
  ⟨rfl, by simp [descriptionText, JsVal.optProp, JsVal.getProp, JsVal.truthy, JsVal.or,
    List.lookup]⟩

/-- Apart from the empty string, the description paragraph is given a
string: for every fetched detail whose description is a non-empty string `s`
its child is `s`, and for every detail whose description is an object
carrying a non-empty string `value` field `v` it is `v`. -/
theorem descriptionText_spec (details : JsVal) :
    (∀ s : String, s ≠ "" → details.getProp "description" = .ok (.str s) →
      descriptionText details = some (.str s)) ∧
    (∀ (fields : List (String × JsVal)) (v : String), v ≠ "" →
      details.getProp "description" = .ok (.obj fields) →
      fields.lookup "value" = some (.str v) →
      descriptionText details = some (.str v)) := by
  constructor
  · intro s hs hd
    have hopt : details.optProp "description" = .str s := by
      simp only [JsVal.optProp, hd]
    simp [descriptionText, hopt, JsVal.truthy, hs]
  · intro fields v hv hd hval
    have hopt : details.optProp "description" = .obj fields := by
      simp only [JsVal.optProp, hd]
    have hvalue : (JsVal.obj fields).optProp "value" = .str v := by
      simp only [JsVal.optProp, JsVal.getProp, hval]
    simp [descriptionText, hopt, hvalue, JsVal.truthy, JsVal.or, hv]

/-- Two instances of `descriptionText_spec`: a description sent as a string,
and one sent as an object with a `value`. -/
theorem descriptionText_spec_witness :
    descriptionText (sampleDetails "A desert planet.") = some (.str "A desert planet.") ∧
    descriptionText (.obj [("description", .obj [("type", .str "/type/text"),
        ("value", .str "A desert planet.")])]) = some (.str "A desert planet.") :=
  ⟨(descriptionText_spec (sampleDetails "A desert planet.")).1 "A desert planet." (by decide) rfl,
    (descriptionText_spec (.obj [("description", .obj [("type", .str "/type/text"),
        ("value", .str "A desert planet.")])])).2
      [("type", .str "/type/text"), ("value", .str "A desert planet.")] "A desert planet."
      (by decide) rfl rfl⟩

/-! ## Claims on the requested URLs -/

/-- The `switch` of `searchBooks` names the parameter `title`, `author` or
`q`, and gives it the encoded query. -/
theorem searchParam_shape (query : String) (type : JsVal) :
    ∃ param : String, (param = "title" ∨ param = "author" ∨ param = "q") ∧
      searchParam query type = param ++ "=" ++ encodeURIComponent query := by
  unfold searchParam
  by_cases h1 : type.strictEqStr "title" = true
  · exact ⟨"title", Or.inl rfl, by simp [h1]⟩
  · by_cases h2 : type.strictEqStr "author" = true
    · exact ⟨"author", Or.inr (Or.inl rfl), by simp [h1, h2]⟩
    · exact ⟨"q", Or.inr (Or.inr rfl), by simp [h1, h2]⟩

set_option maxRecDepth 20000 in
/-- A limit of `10 ^ 21` is written in exponent form in the URL, as
JavaScript writes that number. -/
theorem large_limit_in_exponent_form :
    (openLibraryAPI.searchBooks downNet duneUnits .undefined 1
      1000000000000000000000).requests =
      ["https://openlibrary.org/search.json?q=dune&limit=1e+21&offset=0&fields=key,title,author_name,first_publish_year,cover_i,isbn,publisher,number_of_pages_median"] := by
  decide

/-- C21, counterexample: for a query that is a lone surrogate, asked for page
1 with limit 20 on a network that would answer, `encodeURIComponent(query)`
is no string and `searchBooks` requests no URL at all. -/
theorem lone_surrogate_requests_no_url :
    decodeUtf16 lowSurrogateUnits = none ∧
    encodeURIComponentUnits lowSurrogateUnits = .error uriError ∧
    (openLibraryAPI.searchBooks (sampleNet (samplePage 20 57)) lowSurrogateUnits .undefined
      1 defaultLimit).requests = [] :=
  ⟨by decide, rfl, rfl⟩

/-- C21, amended: for every query on which `encodeURIComponent` does not
throw, every type and all integers `page` and `limit`, the URL requested by
`searchBooks` is "https://openlibrary.org/search.json?" + param + "=" +
encodeURIComponent(query) + "&limit=" + limit + "&offset=" + offset +
"&fields=" and the fixed projection, `param` being `title`, `author` or `q`
and `limit` and `offset` the texts of the two numbers as JavaScript writes
them (in decimal while they stay below `2 ^ 53` in absolute value); in the
call made for a first page without a limit, as `handleSearch` makes it, the
limit parameter is 20 and the offset 0.  For a query on which
`encodeURIComponent` throws, no URL is requested. -/
theorem searchBooks_requested_url (net : String → FetchOutcome) (query : List Nat)
    (type : JsVal) (page limit : Int) :
    (∀ cs, decodeUtf16 query = some cs →
      encodeURIComponentUnits query = .ok (encodeURIComponent (String.mk cs)) ∧
      ∃ param : String, (param = "title" ∨ param = "author" ∨ param = "q") ∧
        (openLibraryAPI.searchBooks net query type page limit).requests =
          ["https://openlibrary.org/search.json?" ++ param ++ "=" ++
            encodeURIComponent (String.mk cs) ++
            "&limit=" ++ (JsNumber.ofInt limit).toText ++ "&offset=" ++
            (openLibraryAPI.searchOffset page limit).toText ++
            "&fields=key,title,author_name,first_publish_year,cover_i,isbn,publisher,number_of_pages_median"] ∧
        (openLibraryAPI.searchBooks net query type 1 defaultLimit).requests =
          ["https://openlibrary.org/search.json?" ++ param ++ "=" ++
            encodeURIComponent (String.mk cs) ++
            "&limit=20&offset=0&fields=key,title,author_name,first_publish_year,cover_i,isbn,publisher,number_of_pages_median"] ∧
        ∀ s : AppState, (handleSearch net s (String.mk cs) type).2 =
          ["https://openlibrary.org/search.json?" ++ param ++ "=" ++
            encodeURIComponent (String.mk cs) ++
            "&limit=20&offset=0&fields=key,title,author_name,first_publish_year,cover_i,isbn,publisher,number_of_pages_median"]) ∧
    (limit.natAbs < 2 ^ 53 → (JsNumber.ofInt limit).toText = toString limit) ∧
    (page.natAbs < 2 ^ 53 → (page - 1).natAbs < 2 ^ 53 → limit.natAbs < 2 ^ 53 →
      ((page - 1) * limit).natAbs < 2 ^ 53 →
      (openLibraryAPI.searchOffset page limit).toText = toString ((page - 1) * limit)) ∧
    (decodeUtf16 query = none →
      encodeURIComponentUnits query = .error uriError ∧
      (openLibraryAPI.searchBooks net query type page limit).requests = []) := by
  have hbase : BASE_URL ++ "/search.json?" = "https://openlibrary.org/search.json?" := by decide
  have hf : "&fields=" ++ searchFields = "&fields=key,title,author_name,first_publish_year,cover_i,isbn,publisher,number_of_pages_median" := by
    decide
  refine ⟨?_, ?_, ?_, ?_⟩
  · intro cs hq
    obtain ⟨param, hparam, hp⟩ := searchParam_shape (String.mk cs) type
    have hurl : ∀ p l : Int, (openLibraryAPI.searchBooks net query type p l).requests =
        ["https://openlibrary.org/search.json?" ++ param ++ "=" ++
          encodeURIComponent (String.mk cs) ++
          "&limit=" ++ (JsNumber.ofInt l).toText ++ "&offset=" ++
          (openLibraryAPI.searchOffset p l).toText ++ "&fields=key,title,author_name,first_publish_year,cover_i,isbn,publisher,number_of_pages_median"] := by
      intro p l
      rw [(searchBooks_built net query type p l _ (searchUrl_decoded query cs type p l hq)).1,
        hbase, hp]
      simp only [String.append_assoc, hf]
    have hl : "&limit=" ++ ("20" ++ ("&offset=" ++ ("0" ++ "&fields=key,title,author_name,first_publish_year,cover_i,isbn,publisher,number_of_pages_median"))) =
        "&limit=20&offset=0&fields=key,title,author_name,first_publish_year,cover_i,isbn,publisher,number_of_pages_median" := by
      decide
    have h20 : (JsNumber.ofInt defaultLimit).toText = "20" := by decide
    have h0 : (openLibraryAPI.searchOffset 1 defaultLimit).toText = "0" := by decide
    refine ⟨by simp only [encodeURIComponentUnits, hq], param, hparam, hurl page limit, ?_, ?_⟩
    · rw [hurl, h20, h0]
      simp only [String.append_assoc, hl]
    · intro s
      have h20t : toString (defaultLimit : Int) = "20" := by decide
      have h0t : toString (((1 : Int) - 1) * defaultLimit) = "0" := by decide
      simp only [handleSearch, searchBooks_requests]
      rw [searchUrl, hbase, hp]
      simp only [searchOffset, h20t, h0t, String.append_assoc, hf, hl]
  · intro hl
    rw [ofInt_small limit hl]
    exact toText_small limit hl
  · intro hp hp1 hl hprod
    rw [searchOffset_exact page limit hp hp1 hl hprod]
    exact toText_small _ hprod
  · intro hq
    refine ⟨by simp only [encodeURIComponentUnits, hq], ?_⟩
    rw [searchBooks_undecodable net query type page limit hq]

/-- Witness of C21: the first page of a general search for "dune", page 3
with limit 20, and a query that is a lone surrogate. -/
theorem searchBooks_requested_url_witness :
    decodeUtf16 duneUnits = some ['d', 'u', 'n', 'e'] ∧
    encodeURIComponentUnits duneUnits =
      .ok (encodeURIComponent (String.mk ['d', 'u', 'n', 'e'])) ∧
    (JsNumber.ofInt 20).toText = toString (20 : Int) ∧
    (openLibraryAPI.searchOffset 3 20).toText = toString (((3 : Int) - 1) * 20) ∧
    decodeUtf16 lowSurrogateUnits = none ∧
    (openLibraryAPI.searchBooks downNet lowSurrogateUnits .undefined 1 defaultLimit).requests =
      [] :=
  ⟨by decide,
    ((searchBooks_requested_url downNet duneUnits .undefined 1 defaultLimit).1 _
      (by decide)).1,
    (searchBooks_requested_url downNet duneUnits .undefined 3 20).2.1 (by decide),
    (searchBooks_requested_url downNet duneUnits .undefined 3 20).2.2.1 (by decide) (by decide)
      (by decide) (by decide),
    by decide,
    ((searchBooks_requested_url downNet lowSurrogateUnits .undefined 1 defaultLimit).2.2.2
      (by decide)).2⟩

/-- C22, counterexample: for the book key "/works/OL1W" the URL requested is
the base followed by the key and ".json"; no "/" is put between the base and
the key. -/
theorem details_url_has_no_separator :
    (getBookDetails downNet (.str "/works/OL1W")).requests =
      ["https://openlibrary.org/works/OL1W.json"] ∧
    (getBookDetails downNet (.str "/works/OL1W")).requests ≠
      ["https://openlibrary.org" ++ "/" ++ "/works/OL1W" ++ ".json"] :=
  ⟨by decide, by decide⟩

/-- C22, amended: for every book key, `getBookDetails` requests exactly the
URL formed as base + key + ".json" with the base "https://openlibrary.org":
the key, which the provider sends with its leading "/", follows the base
directly, without encoding or rewriting. -/
theorem getBookDetails_url (net : String → FetchOutcome) (key : String) :
    (getBookDetails net (.str key)).requests =
      ["https://openlibrary.org" ++ key ++ ".json"] := by
  rw [getBookDetails_requests]
  rfl

/-! ## Claims on sequences of searches and load-mores -/

/-- At its guard, `handleLoadMore` returns without a request and without a
change of the state. -/
theorem handleLoadMore_blocked (net : String → FetchOutcome) (s : AppState)
    (h : s.hasMore.truthy = false ∨ s.isLoadingMore = true) :
    handleLoadMore net s = (some s, []) := by
  have hstart : handleLoadMoreStart s = (s, none) := by
    unfold handleLoadMoreStart
    rcases h with h | h <;> simp [h]
  simp only [handleLoadMore, hstart]

/-- The guard of `handleLoadMore` either holds the call back or lets it
through. -/
theorem loadMore_guard_cases (s : AppState) :
    (s.hasMore.truthy = false ∨ s.isLoadingMore = true) ∨
      (s.hasMore.truthy = true ∧ s.isLoadingMore = false) := by
  cases h1 : s.hasMore.truthy <;> cases h2 : s.isLoadingMore <;> simp

/-- The books appended by a successful `handleLoadMore` are the old ones
followed by the returned ones. -/
theorem appendBooks_some (prev more books : JsVal) (h : appendBooks prev more = some books) :
    ∃ a b, prev.spread = some a ∧ more.spread = some b ∧ books = .arr (a ++ b) := by
  unfold appendBooks at h
  cases ha : prev.spread with
  | none => simp [ha] at h
  | some a =>
    cases hb : more.spread with
    | none => simp [ha, hb] at h
    | some b =>
      simp [ha, hb] at h
      exact ⟨a, b, rfl, rfl, h.symm⟩

/-- One call run to its completion keeps the books within the responses for
the current query. -/
theorem applyOp_keeps_books (net : String → FetchOutcome) (s s' : AppState) (op : Op)
    (hinv : booksFromCurrentQuery net s) (hop : (applyOp net s op).1 = some s') :
    booksFromCurrentQuery net s' := by
  cases op with
  | search query searchType =>
    simp only [applyOp, Option.some.injEq] at hop
    subst hop
    intro items hitems b hb
    cases hout : (searchBooks net query searchType 1 defaultLimit).outcome with
    | error err =>
      simp only [handleSearch, hout, handleSearchSettled, JsVal.spread, Option.some.injEq]
        at hitems
      subst hitems
      simp at hb
    | ok r =>
      simp only [handleSearch, hout, handleSearchSettled] at hitems
      refine ⟨1, r, items, ?_, hitems, hb⟩
      simp only [handleSearch, hout, handleSearchSettled, handleSearchStart]
  | loadMore =>
    simp only [applyOp] at hop
    rcases loadMore_guard_cases s with hg | ⟨hmore, hidle⟩
    · rw [handleLoadMore_blocked net s hg] at hop
      simp only [Option.some.injEq] at hop
      subst hop
      exact hinv
    · rw [handleLoadMore_pass net s hmore hidle] at hop
      simp only at hop
      cases hout : (searchBooks net s.currentQuery s.currentSearchType (s.currentPage + 1)
          defaultLimit).outcome with
      | error err =>
        simp only [hout, handleLoadMoreSettled, Option.some.injEq] at hop
        subst hop
        exact hinv
      | ok r =>
        simp only [hout, handleLoadMoreSettled] at hop
        cases happ : appendBooks s.books r.books with
        | none => simp [happ] at hop
        | some books =>
          simp only [happ, Option.some.injEq] at hop
          subst hop
          obtain ⟨a, c, ha, hc, hbooks⟩ := appendBooks_some _ _ _ happ
          subst hbooks
          intro items hitems b hb
          simp only [JsVal.spread, Option.some.injEq] at hitems
          subst hitems
          rcases List.mem_append.mp hb with hba | hbc
          · exact hinv a ha b hba
          · exact ⟨s.currentPage + 1, r, c, hout, hc, hbc⟩

/-- C23, counterexample: twenty books of "dune" are shown and the next page
is asked for; while that fetch is pending "zzzz" is submitted, and its only
response returns no item; then the pending fetch resolves.  The current query
is "zzzz" and `books` holds twenty items fetched for "dune". -/
theorem stale_page_joins_new_query :
    sampleOutcome 0 0 "zzzz" 1 = .ok ⟨.arr [], .num 0, .bool false⟩ ∧
    ∃ st,
      handleLoadMoreSettled
        (handleSearchSettled
          (handleSearchStart
            (handleLoadMoreStart
              (handleSearch (sampleNet (samplePage 20 57)) AppState.initial "dune"
                .undefined).1).1
            "zzzz" .undefined)
          (sampleOutcome 0 0 "zzzz" 1))
        2 (sampleOutcome 20 57 "dune" 2) = some st ∧
      st.currentQuery = "zzzz" ∧
      st.books = .arr ((List.range 20).map sampleBook) ∧
      sampleBook 0 ∈ (List.range 20).map sampleBook :=
  ⟨rfl, _, rfl, rfl, rfl, by simp [List.range_succ]⟩

/-- C23, amended: in every state reached by `handleSearch` and
`handleLoadMore` calls of which each has its fetch settled before the next
call is made, `books` contains only items returned by responses to requests
made for the current query and search type. -/
theorem books_from_current_query (net : String → FetchOutcome) (ops : List Op)
    (s s' : AppState) (hinv : booksFromCurrentQuery net s)
    (hrun : (runOps net s ops).1 = some s') :
    booksFromCurrentQuery net s' := by
  induction ops generalizing s with
  | nil =>
    simp only [runOps, Option.some.injEq] at hrun
    subst hrun
    exact hinv
  | cons op rest ih =>
    simp only [runOps] at hrun
    cases hop : applyOp net s op with
    | mk next urls =>
      cases next with
      | none => simp [hop] at hrun
      | some next =>
        simp only [hop] at hrun
        exact ih next (applyOp_keeps_books net s next op hinv (by rw [hop])) hrun

/-- Witness of C23: a search of "dune" and one more page, from the initial
state, whose books are none. -/
theorem books_from_current_query_witness :
    booksFromCurrentQuery (sampleNet (samplePage 20 57))
      { (handleSearch (sampleNet (samplePage 20 57)) AppState.initial "dune" .undefined).1 with
        books := .arr ((List.range 20).map sampleBook ++ (List.range 20).map sampleBook)
        currentPage := 2 } :=
  books_from_current_query (sampleNet (samplePage 20 57)) [.search "dune" .undefined, .loadMore]
    AppState.initial _
    (by
      intro items hitems b hb
      simp only [AppState.initial, JsVal.spread, Option.some.injEq] at hitems
      subst hitems
      simp at hb)
    rfl

/-- C24, counterexample: twenty books are held and a `handleLoadMore` has
failed, so the list status is Failed with `error` set; the next
`handleLoadMore` enters the next-page loading status from there. -/
theorem loadMore_enters_from_failed :
    ∃ st,
      (handleLoadMore downNet
        (handleSearch (sampleNet (samplePage 20 57)) AppState.initial "dune" .undefined).1).1
        = some st ∧
      st.error = .str "Failed to fetch books. Please try again." ∧
      st.isLoading = false ∧ st.isLoadingMore = false ∧
      (handleLoadMoreStart st).1.isLoadingMore = true :=
  ⟨_, rfl, rfl, rfl, rfl, rfl⟩

/-- C24, amended: the next-page loading status (`isLoadingMore` true) is
entered by `handleLoadMore` only, and only from a state with `hasMore` truthy;
it is never entered from Idle, the initial state, nor from the Failed state
left by a failed search, where `hasMore` is false.  The guard tests neither
`error` nor `isLoading`, so the status can be entered from the Failed state
left by a failed load-more and while a first page is loading. -/
theorem loadingNextPage_entry (s : AppState) (hidle : s.isLoadingMore = false) :
    ((handleLoadMoreStart s).1.isLoadingMore = true → s.hasMore.truthy = true) ∧
    (s.hasMore.truthy = true → (handleLoadMoreStart s).1.isLoadingMore = true) ∧
    (∀ query searchType, (handleSearchStart s query searchType).isLoadingMore = false) ∧
    (∀ settled, (handleSearchSettled s settled).isLoadingMore = false) ∧
    (∀ s0 nextPage settled st, handleLoadMoreSettled s0 nextPage settled = some st →
      st.isLoadingMore = false) ∧
    (handleLoadMoreStart AppState.initial).1.isLoadingMore = false ∧
    (∀ query searchType err,
      (handleLoadMoreStart (handleSearchSettled (handleSearchStart s query searchType)
        (.error err))).1.isLoadingMore = false) := by
  refine ⟨?_, ?_, fun _ _ => hidle, ?_, ?_, rfl, ?_⟩
  · intro h
    rcases loadMore_guard_cases s with hg | ⟨hmore, _⟩
    · have hstart : handleLoadMoreStart s = (s, none) := by
        unfold handleLoadMoreStart
        rcases hg with hg | hg <;> simp [hg]
      rw [hstart, hidle] at h
      cases h
    · exact hmore
  · intro hmore
    rw [handleLoadMoreStart_pass s hmore hidle]
  · intro settled
    cases settled <;> exact hidle
  · intro s0 nextPage settled st hst
    cases settled with
    | error err =>
      simp only [handleLoadMoreSettled, Option.some.injEq] at hst
      subst hst
      rfl
    | ok r =>
      simp only [handleLoadMoreSettled] at hst
      cases happ : appendBooks s0.books r.books with
      | none => simp [happ] at hst
      | some books =>
        simp only [happ, Option.some.injEq] at hst
        subst hst
        rfl
  · intro query searchType err
    simp [handleLoadMoreStart, handleSearchSettled, handleSearchStart, JsVal.truthy, hidle]

/-- Witness of C24: the state of the counterexample, Failed after a failed
load-more, from which the status is entered, `hasMore` being true. -/
theorem loadingNextPage_entry_witness :
    (handleLoadMoreStart
      { (handleSearch (sampleNet (samplePage 20 57)) AppState.initial "dune" .undefined).1 with
        error := .str "Failed to fetch books. Please try again." }).1.isLoadingMore = true :=
  (loadingNextPage_entry
    { (handleSearch (sampleNet (samplePage 20 57)) AppState.initial "dune" .undefined).1 with
      error := .str "Failed to fetch books. Please try again." } rfl).2.1 rfl

/-- C25, failing run: twenty books of "dune" are held, a first
`handleLoadMore` fails and a second one succeeds.  The twenty new books are
appended and no loading flag is set, but `error` still holds the message of
the failure: the success path of `handleLoadMore` never clears it. -/
theorem loadMore_retry_keeps_error :
    ∃ failed st,
      (handleLoadMore downNet
        (handleSearch (sampleNet (samplePage 20 57)) AppState.initial "dune" .undefined).1).1
        = some failed ∧
      (handleLoadMore (sampleNet (samplePage 20 57)) failed).1 = some st ∧
      st.books = .arr ((List.range 20).map sampleBook ++ (List.range 20).map sampleBook) ∧
      st.isLoading = false ∧ st.isLoadingMore = false ∧
      st.error = .str "Failed to fetch books. Please try again." ∧
      st.error ≠ .null :=
  ⟨_, _, rfl, rfl, rfl, rfl, rfl, rfl, by
    show JsVal.str "Failed to fetch books. Please try again." ≠ JsVal.null
    simp⟩

/-- C26: when the extra `handleLoadMore` receives a successful page with no
item, `books` is unchanged, `hasMore` becomes `false`, `error` is left as it
was (no error is set), and every later `handleLoadMore` is a no-op, on any
network.  A page without any `docs` ends the paging in the same way, with
`hasMore` falsy. -/
theorem empty_page_ends_paging (net : String → FetchOutcome) (s : AppState)
    (B : List JsVal) (status : Nat) (data docs : JsVal)
    (hmore : s.hasMore.truthy = true) (hidle : s.isLoadingMore = false)
    (hbooks : s.books = .arr B)
    (hnet : net (searchUrl s.currentQuery s.currentSearchType (s.currentPage + 1) defaultLimit)
      = .resolved ⟨status, some data⟩)
    (hok : Response.ok ⟨status, some data⟩ = true)
    (hdocs : data.getProp "docs" = .ok docs)
    (hempty : docs = .arr [] ∨ docs = .undefined) :
    ∃ s', handleLoadMore net s =
        (some s', [searchUrl s.currentQuery s.currentSearchType (s.currentPage + 1)
          defaultLimit]) ∧
      s'.books = .arr B ∧ (docs = .arr [] → s'.hasMore = .bool false) ∧
      s'.hasMore.truthy = false ∧ s'.error = s.error ∧ s'.isLoadingMore = false ∧
      ∀ (later : String → FetchOutcome) (n : Nat),
        runOps later s' (List.replicate n .loadMore) = (some s', []) := by
  obtain ⟨numFound, hnum⟩ :=
    (getProp_ok_iff data "numFound").mpr ((getProp_ok_iff data "docs").mp ⟨_, hdocs⟩)
  obtain ⟨r, hr, hrbooks, _, hrfalsy, hrmore⟩ :=
    searchBooks_resolved net s.currentQuery s.currentSearchType (s.currentPage + 1) defaultLimit
      status data docs numFound hnet hok hdocs hnum
  have hrb : r.books = .arr [] := by
    rcases hempty with rfl | rfl <;> rw [hrbooks] <;> rfl
  have hrm : r.hasMore.truthy = false := by
    rcases hempty with rfl | rfl
    · rw [hrmore [] rfl]; rfl
    · rw [hrfalsy rfl]; rfl
  have hrm2 : docs = .arr [] → r.hasMore = .bool false := by
    rintro rfl
    rw [hrmore [] rfl]; rfl
  have happ : appendBooks (.arr B) (.arr []) = some (.arr B) := by
    simp [appendBooks, JsVal.spread]
  have hset : handleLoadMoreSettled { s with isLoadingMore := true } (s.currentPage + 1) (.ok r) =
      some { s with
        books := .arr B
        hasMore := r.hasMore
        currentPage := s.currentPage + 1
        isLoadingMore := false } := by
    simp only [handleLoadMoreSettled, hbooks, hrb, happ]
  rw [handleLoadMore_pass net s hmore hidle, hr, hset]
  refine ⟨_, rfl, rfl, hrm2, hrm, rfl, rfl, ?_⟩
  intro later n
  induction n with
  | zero => rfl
  | succ n ih =>
    have hb := handleLoadMore_blocked later
      { s with
        books := .arr B
        hasMore := r.hasMore
        currentPage := s.currentPage + 1
        isLoadingMore := false } (Or.inl hrm)
    simp only [List.replicate_succ, runOps, applyOp, hb, ih, List.append_nil]

/-- Witness of C26: twenty books with a total of twenty, then an empty second
page; two more calls of `handleLoadMore` change nothing. -/
theorem empty_page_ends_paging_witness :
    ∃ s', handleLoadMore (sampleNet (samplePage 0 20))
        (handleSearch (sampleNet (samplePage 20 20)) AppState.initial "dune" .undefined).1 =
        (some s', [searchUrl "dune" .undefined (1 + 1) defaultLimit]) ∧
      s'.books = .arr ((List.range 20).map sampleBook) ∧ s'.hasMore = .bool false ∧
      s'.error = .null ∧
      runOps (sampleNet (samplePage 20 20)) s' (List.replicate 2 .loadMore) = (some s', []) := by
  obtain ⟨s', hs', hb, hm, _, he, _, hlater⟩ :=
    empty_page_ends_paging (sampleNet (samplePage 0 20))
      (handleSearch (sampleNet (samplePage 20 20)) AppState.initial "dune" .undefined).1
      ((List.range 20).map sampleBook) 200 (samplePage 0 20) (.arr []) rfl rfl rfl rfl rfl rfl
      (Or.inl rfl)
  exact ⟨s', hs', hb, hm rfl, he, hlater _ 2⟩

/-- A sequence of calls run in two parts. -/
theorem runOps_append (net : String → FetchOutcome) (s : AppState) (a b : List Op) :
    runOps net s (a ++ b) =
      match (runOps net s a).1 with
      | some mid => ((runOps net mid b).1, (runOps net s a).2 ++ (runOps net mid b).2)
      | none => (none, (runOps net s a).2) := by
  induction a generalizing s with
  | nil => simp [runOps]
  | cons op rest ih =>
    simp only [List.cons_append, runOps]
    cases hop : applyOp net s op with
    | mk next urls =>
      cases next with
      | none => rfl
      | some next =>
        cases hmid : (runOps net next rest).1 <;> simp [ih next, hmid]

/-- The state after a successful search and `n` successful load-mores. -/
theorem pages_after_loadMores (net : String → FetchOutcome) (s0 : AppState) (q : String)
    (t : JsVal) (pages : Nat → List JsVal) (hidle : s0.isLoadingMore = false) (n : Nat)
    (hpages : ∀ k : Nat, 1 ≤ k → k ≤ n + 1 →
      ∃ r, (searchBooks net q t (k : Int) defaultLimit).outcome = .ok r ∧
        r.books = .arr (pages k) ∧ (k ≤ n → r.hasMore.truthy = true)) :
    ∃ s' r, runOps net s0 (.search q t :: List.replicate n .loadMore) =
        (some s', (List.range (n + 1)).map
          (fun i => searchUrl q t ((i + 1 : Nat) : Int) defaultLimit)) ∧
      (searchBooks net q t ((n + 1 : Nat) : Int) defaultLimit).outcome = .ok r ∧
      s'.hasMore = r.hasMore ∧ s'.currentPage = ((n + 1 : Nat) : Int) ∧
      s'.books = .arr (pagesUpTo pages (n + 1)) ∧
      s'.currentQuery = q ∧ s'.currentSearchType = t ∧ s'.isLoadingMore = false := by
  induction n with
  | zero =>
    obtain ⟨r, hr, hb, _⟩ := hpages 1 (le_refl 1) (le_refl 1)
    have hr1 : (searchBooks net q t 1 defaultLimit).outcome = .ok r := by simpa using hr
    refine ⟨handleSearchSettled (handleSearchStart s0 q t) (.ok r), r, ?_, hr, rfl, rfl, ?_,
      rfl, rfl, hidle⟩
    · simp [runOps, applyOp, handleSearch, hr1, searchBooks_requests, List.range_succ]
    · show r.books = _
      rw [hb]
      simp [pagesUpTo]
  | succ n ih =>
    obtain ⟨s', r, hrun, hr, hmore, hpage, hbooks, hq, ht, hidle'⟩ := ih (by
      intro k h1 h2
      obtain ⟨r, hr, hb, hm⟩ := hpages k h1 (by omega)
      exact ⟨r, hr, hb, fun h => hm (by omega)⟩)
    obtain ⟨r1, hr1, _, hm1⟩ := hpages (n + 1) (by omega) (by omega)
    have hrr : r1 = r := by
      rw [hr] at hr1
      cases hr1
      rfl
    subst hrr
    have htruthy : s'.hasMore.truthy = true := by
      rw [hmore]
      exact hm1 (le_refl _)
    obtain ⟨r2, hr2, hb2, _⟩ := hpages (n + 2) (by omega) (le_refl _)
    have hcast : s'.currentPage + 1 = ((n + 2 : Nat) : Int) := by
      rw [hpage]
      push_cast
      ring
    have hout : (searchBooks net s'.currentQuery s'.currentSearchType (s'.currentPage + 1)
        defaultLimit).outcome = .ok r2 := by
      rw [hq, ht, hcast]
      exact hr2
    have happ : appendBooks (.arr (pagesUpTo pages (n + 1))) (.arr (pages (n + 2))) =
        some (.arr (pagesUpTo pages (n + 2))) := rfl
    have hstep : handleLoadMore net s' =
        (some { s' with
          books := .arr (pagesUpTo pages (n + 2))
          hasMore := r2.hasMore
          currentPage := s'.currentPage + 1
          isLoadingMore := false },
          [searchUrl q t ((n + 2 : Nat) : Int) defaultLimit]) := by
      rw [handleLoadMore_pass net s' htruthy hidle', hout]
      simp only [handleLoadMoreSettled, hbooks, hb2, happ, hq, ht, hcast]
    refine ⟨{ s' with
        books := .arr (pagesUpTo pages (n + 2))
        hasMore := r2.hasMore
        currentPage := s'.currentPage + 1
        isLoadingMore := false }, r2, ?_, hr2, rfl, hcast, rfl, hq, ht, rfl⟩
    have hlist : Op.search q t :: List.replicate (n + 1) Op.loadMore =
        (Op.search q t :: List.replicate n Op.loadMore) ++ [Op.loadMore] := by
      rw [List.replicate_succ', List.cons_append]
    rw [hlist, runOps_append, hrun]
    simp only [runOps, applyOp, hstep, List.append_nil]
    rw [List.range_succ (n + 1), List.map_append]
    rfl

/-- C27: for every `n`, after a successful `handleSearch` followed by `n`
successful `handleLoadMore` calls, each completing before the next starts,
the requests are those of the pages 1 to `n + 1` in order, so the `k`-th
load-more requested page `k + 1`, whose offset is `20 * k`; the windows of
twenty are contiguous and pairwise disjoint; `currentPage = n + 1`; and
`books` is the concatenation, in the order of the requests, of the items of
the `n + 1` pages. -/
theorem successive_pages (net : String → FetchOutcome) (s0 : AppState) (q : String)
    (t : JsVal) (pages : Nat → List JsVal) (n : Nat) (hidle : s0.isLoadingMore = false)
    (hpages : ∀ k : Nat, 1 ≤ k → k ≤ n + 1 →
      ∃ r, (searchBooks net q t (k : Int) defaultLimit).outcome = .ok r ∧
        r.books = .arr (pages k) ∧ (k ≤ n → r.hasMore.truthy = true)) :
    ∃ s', runOps net s0 (.search q t :: List.replicate n .loadMore) =
        (some s', (List.range (n + 1)).map
          (fun i => searchUrl q t ((i + 1 : Nat) : Int) defaultLimit)) ∧
      s'.currentPage = (n : Int) + 1 ∧
      s'.books = .arr (pagesUpTo pages (n + 1)) ∧
      (∀ k : Nat, searchOffset ((k + 1 : Nat) : Int) defaultLimit = 20 * (k : Int)) ∧
      (∀ k : Nat, searchOffset ((k + 2 : Nat) : Int) defaultLimit =
        searchOffset ((k + 1 : Nat) : Int) defaultLimit + 20) ∧
      (∀ j k : Nat, j < k →
        searchOffset ((j + 1 : Nat) : Int) defaultLimit + 20 ≤
          searchOffset ((k + 1 : Nat) : Int) defaultLimit) := by
  obtain ⟨s', _, hrun, _, _, hpage, hbooks, _⟩ :=
    pages_after_loadMores net s0 q t pages hidle n hpages
  refine ⟨s', hrun, ?_, hbooks, ?_, ?_, ?_⟩
  · rw [hpage]
    push_cast
    rfl
  · intro k
    simp only [searchOffset, defaultLimit]
    push_cast
    ring
  · intro k
    simp only [searchOffset, defaultLimit]
    push_cast
    ring
  · intro j k hjk
    simp only [searchOffset, defaultLimit]
    push_cast
    omega

/-- Witness of C27: a first page of twenty books and one more page of seven:
two requests, page 2, and twenty-seven books. -/
theorem successive_pages_witness :
    ∃ s', runOps pagedNet AppState.initial (.search "dune" .undefined :: List.replicate 1 .loadMore)
        = (some s', (List.range (1 + 1)).map
          (fun i => searchUrl "dune" .undefined ((i + 1 : Nat) : Int) defaultLimit)) ∧
      s'.currentPage = ((1 : Nat) : Int) + 1 ∧
      s'.books = .arr (pagesUpTo pagedItems (1 + 1)) ∧
      (pagesUpTo pagedItems (1 + 1)).length = 27 := by
  obtain ⟨s', hrun, hpage, hbooks, _⟩ :=
    successive_pages pagedNet AppState.initial "dune" .undefined pagedItems 1 rfl (by
      intro k h1 h2
      have hk : k = 1 ∨ k = 2 := by omega
      rcases hk with rfl | rfl
      · exact ⟨⟨.arr ((List.range 20).map sampleBook), .num 27, .bool true⟩, rfl,
          rfl, fun _ => rfl⟩
      · exact ⟨⟨.arr ((List.range 7).map sampleBook), .num 27, .bool false⟩, rfl,
          rfl, fun h => absurd h (by decide)⟩)
  exact ⟨s', hrun, hpage, hbooks, rfl⟩

/-- The continuation of `handleLoadMore` leaves the query, the search type
and the total as they are. -/
theorem handleLoadMoreSettled_keeps (s0 st : AppState) (nextPage : Int)
    (settled : Except JsError SearchResult)
    (h : handleLoadMoreSettled s0 nextPage settled = some st) :
    st.currentQuery = s0.currentQuery ∧ st.currentSearchType = s0.currentSearchType ∧
      st.totalResults = s0.totalResults := by
  cases settled with
  | error err =>
    simp only [handleLoadMoreSettled, Option.some.injEq] at h
    subst h
    exact ⟨rfl, rfl, rfl⟩
  | ok r =>
    simp only [handleLoadMoreSettled] at h
    cases happ : appendBooks s0.books r.books with
    | none => simp [happ] at h
    | some books =>
      simp only [happ, Option.some.injEq] at h
      subst h
      exact ⟨rfl, rfl, rfl⟩

/-- C28: a `handleLoadMore` whose fetch fails leaves `hasMore`,
`currentPage`, `totalResults`, `currentQuery` and `currentSearchType` as they
were, so the `handleLoadMore` that follows is let through by the guard and
requests the same page again; a successful `handleLoadMore` leaves
`totalResults`, `currentQuery` and `currentSearchType` unchanged. -/
theorem handleLoadMore_frame (net : String → FetchOutcome) (s : AppState)
    (hmore : s.hasMore.truthy = true) (hidle : s.isLoadingMore = false) :
    (∀ err, (searchBooks net s.currentQuery s.currentSearchType (s.currentPage + 1)
        defaultLimit).outcome = .error err →
      ∃ s', handleLoadMore net s =
          (some s', [searchUrl s.currentQuery s.currentSearchType (s.currentPage + 1)
            defaultLimit]) ∧
        s'.hasMore = s.hasMore ∧ s'.currentPage = s.currentPage ∧
        s'.totalResults = s.totalResults ∧ s'.currentQuery = s.currentQuery ∧
        s'.currentSearchType = s.currentSearchType ∧
        ∀ later : String → FetchOutcome, (handleLoadMore later s').2 =
          [searchUrl s.currentQuery s.currentSearchType (s.currentPage + 1) defaultLimit]) ∧
    (∀ r s', (searchBooks net s.currentQuery s.currentSearchType (s.currentPage + 1)
        defaultLimit).outcome = .ok r →
      (handleLoadMore net s).1 = some s' →
      s'.totalResults = s.totalResults ∧ s'.currentQuery = s.currentQuery ∧
        s'.currentSearchType = s.currentSearchType) := by
  constructor
  · intro err hfail
    rw [handleLoadMore_pass net s hmore hidle, hfail]
    refine ⟨{ s with error := .str err.message, isLoadingMore := false }, rfl, rfl, rfl, rfl,
      rfl, rfl, ?_⟩
    intro later
    rw [handleLoadMore_pass later
      { s with error := .str err.message, isLoadingMore := false } hmore rfl]
  · intro r s' hr hs'
    rw [handleLoadMore_pass net s hmore hidle, hr] at hs'
    simp only at hs'
    obtain ⟨hq, ht, htot⟩ := handleLoadMoreSettled_keeps _ s' _ _ hs'
    exact ⟨htot, hq, ht⟩

/-- Witness of C28: twenty books are held and the network is down; the call
that follows requests page 2 again. -/
theorem handleLoadMore_frame_witness :
    ∃ s', handleLoadMore downNet
        (handleSearch (sampleNet (samplePage 20 57)) AppState.initial "dune" .undefined).1 =
        (some s', [searchUrl "dune" .undefined (1 + 1) defaultLimit]) ∧
      s'.currentPage = 1 ∧ s'.totalResults = .num 57 ∧
      (handleLoadMore (sampleNet (samplePage 20 57)) s').2 =
        [searchUrl "dune" .undefined (1 + 1) defaultLimit] := by
  obtain ⟨s', hs', _, hp, ht, _, _, hlater⟩ :=
    (handleLoadMore_frame downNet
      (handleSearch (sampleNet (samplePage 20 57)) AppState.initial "dune" .undefined).1
      rfl rfl).1 searchFailure rfl
  exact ⟨s', hs', hp, ht, hlater _⟩

/-- Three literals around a variable part merge into one. -/
theorem append_merge (a b c d x : String) (h : a ++ b ++ c = d) :
    a ++ (b ++ (c ++ x)) = d ++ x := by
  rw [← h]
  simp only [String.append_assoc]

/-- The URL of a search without search type, in the page size of `App`. -/
theorem searchUrl_general (query : String) (page : Int) :
    searchUrl query .undefined page defaultLimit =
      "https://openlibrary.org/search.json?q=" ++ encodeURIComponent query ++
        "&limit=20&offset=" ++ toString ((page - 1) * 20) ++
        "&fields=key,title,author_name,first_publish_year,cover_i,isbn,publisher,number_of_pages_median" := by
  have hp : searchParam query .undefined = "q=" ++ encodeURIComponent query := rfl
  have hf : "&fields=" ++ searchFields =
      "&fields=key,title,author_name,first_publish_year,cover_i,isbn,publisher,number_of_pages_median" := by
    decide
  rw [searchUrl, hp]
  simp only [searchOffset, defaultLimit, String.append_assoc, hf]
  rw [append_merge BASE_URL "/search.json?" "q=" "https://openlibrary.org/search.json?q="
      _ (by decide),
    append_merge "&limit=" (toString (20 : Int)) "&offset=" "&limit=20&offset=" _ (by decide)]

/-- After any number of load-mores, every URL requested belongs to the stored
query and search type. -/
theorem loadMores_request_stored_query (net : String → FetchOutcome) (n : Nat) (s : AppState)
    (url : String) (hurl : url ∈ (runOps net s (List.replicate n .loadMore)).2) :
    ∃ page : Int, url = searchUrl s.currentQuery s.currentSearchType page defaultLimit := by
  induction n generalizing s with
  | zero => simp [runOps] at hurl
  | succ n ih =>
    simp only [List.replicate_succ, runOps, applyOp] at hurl
    rcases loadMore_guard_cases s with hg | ⟨hmore, hidle⟩
    · rw [handleLoadMore_blocked net s hg] at hurl
      simp only [List.nil_append] at hurl
      exact ih s hurl
    · rw [handleLoadMore_pass net s hmore hidle] at hurl
      cases hset : handleLoadMoreSettled { s with isLoadingMore := true } (s.currentPage + 1)
          (searchBooks net s.currentQuery s.currentSearchType (s.currentPage + 1)
            defaultLimit).outcome with
      | none =>
        simp only [hset, List.mem_singleton] at hurl
        exact ⟨_, hurl⟩
      | some next =>
        simp only [hset, List.singleton_append, List.mem_cons] at hurl
        rcases hurl with hurl | hurl
        · exact ⟨_, hurl⟩
        · obtain ⟨hq, ht, _⟩ := handleLoadMoreSettled_keeps _ next _ _ hset
          obtain ⟨page, hpage⟩ := ih next hurl
          rw [hq, ht] at hpage
          exact ⟨page, hpage⟩

/-- A whole `handleSearch` stores the query and the search type it was called
with, however its fetch settles. -/
theorem handleSearch_stores (net : String → FetchOutcome) (s : AppState) (query : String)
    (searchType : JsVal) :
    (handleSearch net s query searchType).1.currentQuery = query ∧
      (handleSearch net s query searchType).1.currentSearchType = searchType := by
  simp only [handleSearch]
  cases (searchBooks net query searchType 1 defaultLimit).outcome <;> exact ⟨rfl, rfl⟩

/-- C29: every search started through `SearchBar`, by the form or by a
suggestion button, calls `handleSearch` with the query text only, so the
stored `currentSearchType` is `undefined`; and every request issued for such
a search, the first page and every later load-more page, is a `q=` request:
none is a `title=` or an `author=` request. -/
theorem searchBar_general_param (net : String → FetchOutcome) (s : AppState) (query : String)
    (n : Nat) :
    (jsTrim query ≠ "" →
      submitForm net s query = handleSearch net s query .undefined ∧
      (submitForm net s query).1.currentSearchType = .undefined) ∧
    (∀ suggestion, suggestion ∈ suggestions →
      clickSuggestion net s suggestion = handleSearch net s suggestion .undefined ∧
      (clickSuggestion net s suggestion).1.currentSearchType = .undefined) ∧
    (∀ url, url ∈ (runOps net s (.search query .undefined :: List.replicate n .loadMore)).2 →
      ∃ page : Int, url =
        "https://openlibrary.org/search.json?q=" ++ encodeURIComponent query ++
          "&limit=20&offset=" ++ toString ((page - 1) * 20) ++
          "&fields=key,title,author_name,first_publish_year,cover_i,isbn,publisher,number_of_pages_median") := by
  refine ⟨?_, ?_, ?_⟩
  · intro h
    have hs : handleSubmit query = some query := by simp [handleSubmit, JsVal.truthy, h]
    have hf : submitForm net s query = handleSearch net s query .undefined := by
      simp only [submitForm, hs]
    exact ⟨hf, by rw [hf]; exact (handleSearch_stores net s query .undefined).2⟩
  · intro suggestion _
    exact ⟨rfl, (handleSearch_stores net s suggestion .undefined).2⟩
  · intro url hurl
    simp only [runOps, applyOp, handleSearch, searchBooks_requests, List.singleton_append,
      List.mem_cons] at hurl
    rcases hurl with hurl | hurl
    · exact ⟨1, by rw [hurl, searchUrl_general]⟩
    · obtain ⟨page, hpage⟩ := loadMores_request_stored_query net n _ url hurl
      have hst := handleSearch_stores net s query .undefined
      simp only [handleSearch] at hst
      rw [hst.1, hst.2, searchUrl_general] at hpage
      exact ⟨page, hpage⟩

/-- Witness of C29: "Jane Austen" typed in the form, and the suggestion
"Poetry" clicked. -/
theorem searchBar_general_param_witness :
    (submitForm (sampleNet (samplePage 20 57)) AppState.initial "Jane Austen" =
        handleSearch (sampleNet (samplePage 20 57)) AppState.initial "Jane Austen" .undefined ∧
      (submitForm (sampleNet (samplePage 20 57)) AppState.initial
        "Jane Austen").1.currentSearchType = .undefined) ∧
    (clickSuggestion (sampleNet (samplePage 20 57)) AppState.initial "Poetry" =
        handleSearch (sampleNet (samplePage 20 57)) AppState.initial "Poetry" .undefined ∧
      (clickSuggestion (sampleNet (samplePage 20 57)) AppState.initial
        "Poetry").1.currentSearchType = .undefined) :=
  ⟨(searchBar_general_param (sampleNet (samplePage 20 57)) AppState.initial "Jane Austen" 1).1
      (by decide),
    (searchBar_general_param (sampleNet (samplePage 20 57)) AppState.initial "Jane Austen" 1).2.1
      "Poetry" (by decide)⟩

/-- C30: `getCoverUrl` is injective on non-empty string cover ids and the
size codes 'S', 'M' and 'L': equal URLs come from equal ids and equal
sizes. -/
theorem getCoverUrl_injective (a b s t : String) (ha : a ≠ "") (hb : b ≠ "")
    (hs : s = "S" ∨ s = "M" ∨ s = "L") (ht : t = "S" ∨ t = "M" ∨ t = "L")
    (h : getCoverUrl (.str a) (.str s) = getCoverUrl (.str b) (.str t)) :
    a = b ∧ s = t := by
  have hurl : ∀ id size : String, id ≠ "" →
      getCoverUrl (.str id) (.str size) =
        .str ("https://covers.openlibrary.org/b/id/" ++ id ++ "-" ++ size ++ ".jpg") := by
    intro id size hid
    simp [getCoverUrl, JsVal.truthy, hid, JsVal.toStr]
  rw [hurl a s ha, hurl b t hb] at h
  have hstr := congrArg String.data (JsVal.str.inj h)
  simp only [String.data_append, List.append_assoc] at hstr
  have htail := List.append_cancel_left hstr
  have hsplit : a.data = b.data ∧
      "-".data ++ (s.data ++ ".jpg".data) = "-".data ++ (t.data ++ ".jpg".data) := by
    apply List.append_inj' htail
    rcases hs with rfl | rfl | rfl <;> rcases ht with rfl | rfl | rfl <;> rfl
  refine ⟨String.ext hsplit.1, ?_⟩
  have hsize := List.append_cancel_right (List.append_cancel_left hsplit.2)
  exact String.ext hsize

/-- Witness of C30: the same id in the same size. -/
theorem getCoverUrl_injective_witness : "12345" = "12345" ∧ "M" = "M" :=
  getCoverUrl_injective "12345" "12345" "M" "M" (by decide) (by decide)
    (Or.inr (Or.inl rfl)) (Or.inr (Or.inl rfl)) rfl

end BookFinder
